import Mathlib

/-!
Verification development for the ytmusic-stats pipeline
(Google-Takeout parser → metadata resolver / duration estimator → statistics
aggregator).  The TypeScript sources are shallowly embedded: strings are
`List Char`, JavaScript numbers are `Nat`/`Int`/`ℚ` with exact arithmetic,
`Date` values are epoch milliseconds (`Int`), and the anchored regular
expressions of the source are embedded as explicit character-level matchers
with JavaScript backtracking semantics.  Wall-clock inputs (current year,
start of the current month) and the external collaborators (date parser,
cache contents, metadata provider) are explicit parameters.  Case folding is
modelled on ASCII letters (the sources only match ASCII patterns).
-/

set_option maxRecDepth 4000

namespace Ytm

/-- Strings are modelled as lists of characters. -/
abbrev Str := List Char

/-- JavaScript regex `\s` / `String.prototype.trim` whitespace class. -/
def isJsWs (c : Char) : Bool :=
  let n := c.toNat
  n = 32 || n = 9 || n = 10 || n = 11 || n = 12 || n = 13 ||
  n = 0xA0 || n = 0x1680 || (0x2000 ≤ n && n ≤ 0x200A) ||
  n = 0x2028 || n = 0x2029 || n = 0x202F || n = 0x205F || n = 0x3000 || n = 0xFEFF

/-- Characters matched by the JavaScript regex `.` (anything but line terminators). -/
def dotOk (c : Char) : Bool :=
  let n := c.toNat
  !(n = 10 || n = 13 || n = 0x2028 || n = 0x2029)

/-- JavaScript regex `\d`. -/
def isDigitC (c : Char) : Bool := c.isDigit

/-- JavaScript regex `\w` (`[A-Za-z0-9_]`). -/
def isWordC (c : Char) : Bool := c.isAlphanum || c = '_'

/-- ASCII model of `String.prototype.toLowerCase` / regex `i`-folding. -/
def lowerC (c : Char) : Char := c.toLower

def lowerS (s : Str) : Str := s.map lowerC

/-- Leading-whitespace run dropped (`\s*` consuming maximally). -/
def dropWs (s : Str) : Str := s.dropWhile isJsWs

/-- Length of the leading whitespace run. -/
def wsCount (s : Str) : Nat := (s.takeWhile isJsWs).length

/-- Length of the trailing whitespace run. -/
def trailWsLen (s : Str) : Nat := (s.reverse.takeWhile isJsWs).length

/-- Drop trailing whitespace (structurally, so the kernel can evaluate it). -/
def dropTrailWs : Str → Str
  | [] => []
  | c :: rest =>
    let r := dropTrailWs rest
    if r.isEmpty then (if isJsWs c then [] else [c]) else c :: r

/-- `String.prototype.trim`. -/
def trimS (s : Str) : Str := dropTrailWs (dropWs s)

/-- Consume the literal `pat` case-insensitively, returning the remainder. -/
def litCI : Str → Str → Option Str
  | [], r => some r
  | _ :: _, [] => none
  | p :: ps, c :: cs => if lowerC c = lowerC p then litCI ps cs else none

/-- Run a continuation on the remainder of a partial match. -/
def afterOpt (o : Option Str) (k : Str → Bool) : Bool :=
  match o with
  | some r => k r
  | none => false

/-- `needle` occurs as a contiguous substring of `hay` (`String.prototype.includes`). -/
def isSubstr (needle hay : Str) : Bool :=
  match hay with
  | [] => needle.isEmpty
  | _ :: rest => needle.isPrefixOf hay || isSubstr needle rest

/-- Case-insensitive starts-with (an `^escaped-literal` regex test). -/
def startsWithCI : Str → Str → Bool
  | [], _ => true
  | _ :: _, [] => false
  | p :: ps, c :: cs => lowerC c = lowerC p && startsWithCI ps cs

/-- `replace(/\s+/g, " ")`: auxiliary with an in-run flag, structurally recursive. -/
def collapseAux : Bool → Str → Str
  | _, [] => []
  | inWs, c :: rest =>
    if isJsWs c then
      (if inWs then collapseAux true rest else ' ' :: collapseAux true rest)
    else c :: collapseAux false rest

/-- `replace(/\s+/g, " ")`: every maximal whitespace run becomes one space. -/
def collapseWs (s : Str) : Str := collapseAux false s

/-!
### Anchored trailing-annotation patterns of `cleanTitle` and friends

Each regex of the form `/\s*⟨body⟩$/` (or `/\s+⟨body⟩$/`) is embedded as a
`body` predicate that tests whether a suffix of the string is exactly the
part after the whitespace, plus a generic stripper implementing the leftmost
match of the anchored pattern.
-/

/-- Find the leftmost position whose suffix matches `body` with at least
`minWs` whitespace characters directly before it, and remove the match
together with the whole preceding whitespace run (the greedy `\s*`/`\s+`).
Returns the string unchanged when the pattern does not match
(`String.prototype.replace` with an anchored pattern). -/
def stripEndPat (minWs : Nat) (body : Str → Bool) (s : Str) : Str :=
  match (List.range (s.length + 1)).find?
      (fun m => body (s.drop m) && decide (minWs ≤ trailWsLen (s.take m))) with
  | some m =>
    let pre := s.take m
    pre.take (pre.length - trailWsLen pre)
  | none => s

/-- Body of `/\s*\(official\s+(video|audio|music\s+video)\)$/i`. -/
def bodyOfficialParen (s : Str) : Bool :=
  match s with
  | '(' :: r =>
    afterOpt (litCI "official".data r) fun r2 =>
      decide (1 ≤ wsCount r2) &&
      (let r3 := dropWs r2
       afterOpt (litCI "video".data r3) (· == [')']) ||
       afterOpt (litCI "audio".data r3) (· == [')']) ||
       (afterOpt (litCI "music".data r3) fun r4 =>
         decide (1 ≤ wsCount r4) &&
         afterOpt (litCI "video".data (dropWs r4)) (· == [')'])))
  | _ => false

/-- Body of `/\s*\[official\s+(video|audio|music\s+video)\]$/i`. -/
def bodyOfficialBracket (s : Str) : Bool :=
  match s with
  | '[' :: r =>
    afterOpt (litCI "official".data r) fun r2 =>
      decide (1 ≤ wsCount r2) &&
      (let r3 := dropWs r2
       afterOpt (litCI "video".data r3) (· == [']']) ||
       afterOpt (litCI "audio".data r3) (· == [']']) ||
       (afterOpt (litCI "music".data r3) fun r4 =>
         decide (1 ≤ wsCount r4) &&
         afterOpt (litCI "video".data (dropWs r4)) (· == [']'])))
  | _ => false

/-- Body of `/\s*-\s*official\s+(video|audio|music\s+video)$/i` (after the `\s*`). -/
def bodyDashOfficial (s : Str) : Bool :=
  match s with
  | '-' :: r =>
    afterOpt (litCI "official".data (dropWs r)) fun r2 =>
      decide (1 ≤ wsCount r2) &&
      (let r3 := dropWs r2
       afterOpt (litCI "video".data r3) (· == []) ||
       afterOpt (litCI "audio".data r3) (· == []) ||
       (afterOpt (litCI "music".data r3) fun r4 =>
         decide (1 ≤ wsCount r4) &&
         afterOpt (litCI "video".data (dropWs r4)) (· == [])))
  | _ => false

/-- Body of `/\s*\((lyrics|lyric\s+video|with\s+lyrics)\)$/i`. -/
def bodyLyricsParen (s : Str) : Bool :=
  match s with
  | '(' :: r =>
    afterOpt (litCI "lyrics".data r) (· == [')']) ||
    (afterOpt (litCI "lyric".data r) fun r2 =>
      decide (1 ≤ wsCount r2) &&
      afterOpt (litCI "video".data (dropWs r2)) (· == [')'])) ||
    (afterOpt (litCI "with".data r) fun r2 =>
      decide (1 ≤ wsCount r2) &&
      afterOpt (litCI "lyrics".data (dropWs r2)) (· == [')']))
  | _ => false

/-- Body of `/\s*\[(lyrics|lyric\s+video|with\s+lyrics)\]$/i`. -/
def bodyLyricsBracket (s : Str) : Bool :=
  match s with
  | '[' :: r =>
    afterOpt (litCI "lyrics".data r) (· == [']']) ||
    (afterOpt (litCI "lyric".data r) fun r2 =>
      decide (1 ≤ wsCount r2) &&
      afterOpt (litCI "video".data (dropWs r2)) (· == [']'])) ||
    (afterOpt (litCI "with".data r) fun r2 =>
      decide (1 ≤ wsCount r2) &&
      afterOpt (litCI "lyrics".data (dropWs r2)) (· == [']']))
  | _ => false

/-- Body of `/\s*\[(hd|hq|4k)\]$/i`. -/
def bodyHdBracket (s : Str) : Bool :=
  match s with
  | '[' :: r =>
    afterOpt (litCI "hd".data r) (· == [']']) ||
    afterOpt (litCI "hq".data r) (· == [']']) ||
    afterOpt (litCI "4k".data r) (· == [']'])
  | _ => false

/-- Body of `/\s*\((hd|hq|4k)\)$/i`. -/
def bodyHdParen (s : Str) : Bool :=
  match s with
  | '(' :: r =>
    afterOpt (litCI "hd".data r) (· == [')']) ||
    afterOpt (litCI "hq".data r) (· == [')']) ||
    afterOpt (litCI "4k".data r) (· == [')'])
  | _ => false

/-- Body of `/\s*\(\d{4}\)$/i`: an opening paren, exactly four digits, a closing
paren, then the end of the string. -/
def bodyYearParen (s : Str) : Bool :=
  match s with
  | '(' :: a :: b :: c :: d :: ')' :: [] =>
    isDigitC a && isDigitC b && isDigitC c && isDigitC d
  | _ => false

/-- `\s+⟨tail⟩$` continuation used by `.+$`-shaped patterns: at least one
whitespace character, then `.+` must reach the end of the string (taking the
last whitespace characters when nothing else remains, as the greedy `\s+`
backtracks). -/
def wsDotTail (r : Str) : Bool :=
  let w := r.takeWhile isJsWs
  let t := r.dropWhile isJsWs
  decide (1 ≤ w.length) &&
  ((!t.isEmpty && t.all dotOk) ||
   (t.isEmpty && decide (2 ≤ w.length) && dotOk (w.getLastD ' ')))

/-- Body of `/\s+(feat\.|ft\.|featuring)\s+.+$/i`. -/
def bodyFeat (s : Str) : Bool :=
  afterOpt (litCI "feat.".data s) wsDotTail ||
  afterOpt (litCI "ft.".data s) wsDotTail ||
  afterOpt (litCI "featuring".data s) wsDotTail

/-- Body of `/\s*\(\s*remix\s*\)$/i`. -/
def bodyRemixParen (s : Str) : Bool :=
  match s with
  | '(' :: r =>
    afterOpt (litCI "remix".data (dropWs r)) fun r2 => dropWs r2 == [')']
  | _ => false

/-- Body of `/\s*-\s*topic$/i`. -/
def bodyDashTopic (s : Str) : Bool :=
  match s with
  | '-' :: r => afterOpt (litCI "topic".data (dropWs r)) (· == [])
  | _ => false

/-- Body matching exactly the literal `w` up to the end of the string. -/
def litEndCI (w : String) (s : Str) : Bool :=
  afterOpt (litCI w.data s) (· == [])

/-- `replace(/^watched\s+/i, "")` from `cleanTitle`. -/
def stripWatched (s : Str) : Str :=
  match litCI "watched".data s with
  | some r => if 1 ≤ wsCount r then dropWs r else s
  | none => s

/-- `cleanTitle` from `src/lib/client/parser.ts` (`GoogleTakeoutParser.cleanTitle`
in `src/components/processing-status.tsx` is textually identical): trim, strip a
leading `watched ` prefix, strip trailing official/lyrics/HD/year annotations,
collapse whitespace, trim. -/
def cleanTitle (s : Str) : Str :=
  let s1 := trimS s
  let s2 := stripWatched s1
  let s3 := stripEndPat 0 bodyOfficialParen s2
  let s4 := stripEndPat 0 bodyOfficialBracket s3
  let s5 := stripEndPat 0 bodyDashOfficial s4
  let s6 := stripEndPat 0 bodyLyricsParen s5
  let s7 := stripEndPat 0 bodyLyricsBracket s6
  let s8 := stripEndPat 0 bodyHdBracket s7
  let s9 := stripEndPat 0 bodyHdParen s8
  let s10 := stripEndPat 0 bodyYearParen s9
  trimS (collapseWs s10)

/-- `cleanSongTitle`: strip a trailing `feat./ft./featuring …` clause and a
trailing `(remix)` marker. -/
def cleanSongTitle (s : Str) : Str :=
  let s1 := trimS s
  let s2 := stripEndPat 1 bodyFeat s1
  let s3 := stripEndPat 0 bodyRemixParen s2
  trimS s3

/-- `cleanArtistName` from `src/components/processing-status.tsx`: strip
trailing `- Topic`, `Official`, `VEVO`, `Records`. -/
def cleanArtistNamePS (s : Str) : Str :=
  let s1 := trimS s
  let s2 := stripEndPat 0 bodyDashTopic s1
  let s3 := stripEndPat 1 (litEndCI "official") s2
  let s4 := stripEndPat 1 (litEndCI "vevo") s3
  let s5 := stripEndPat 1 (litEndCI "records") s4
  trimS s5

/-- `cleanArtistName` from `src/lib/client/parser.ts`: like the
processing-status variant but with an additional trailing `Music` strip. -/
def cleanArtistName (s : Str) : Str :=
  let s1 := trimS s
  let s2 := stripEndPat 0 bodyDashTopic s1
  let s3 := stripEndPat 1 (litEndCI "official") s2
  let s4 := stripEndPat 1 (litEndCI "vevo") s3
  let s5 := stripEndPat 1 (litEndCI "music") s4
  let s6 := stripEndPat 1 (litEndCI "records") s5
  trimS s6

/-!
### Title-splitting heuristics

The five fallback patterns of `GoogleTakeoutParser.extractSongInfo` and the
patterns of `extractArtistFromTitle` share three regex shapes, embedded with
the JavaScript engine's lazy-group/greedy-whitespace backtracking:
`^(.+?)\s*[sep]\s*(.+)$`, `^(.+?)\s+by\s+(.+)$` and `^.+?[sep]\s*(.+)$`.
-/

def dashChars : List Char := ['-', '–', '—']

def middotChars : List Char := ['·', '•']

def sepAllChars : List Char := ['-', '–', '—', '·', '•', ':']

/-- First match of `^(.+?)\s*[sep]\s*(.+)$`: the lazy first group grows one
character at a time (`pre` is the part already committed to the group); after
it the greedy `\s*` run must be followed by a separator character, then `\s*`
and a non-empty `.+` reaching the end of the string. -/
def splitSepGo (seps : List Char) (pre : Str) : Str → Option (Str × Str)
  | [] => none
  | c :: rest =>
    if dotOk c then
      let g1 := pre ++ [c]
      let r2 := dropWs rest
      match r2 with
      | d :: r3 =>
        if d ∈ seps then
          let w2 := r3.takeWhile isJsWs
          let t := r3.dropWhile isJsWs
          if !t.isEmpty && t.all dotOk then some (g1, t)
          else if t.isEmpty && decide (1 ≤ w2.length) && dotOk (w2.getLastD ' ') then
            some (g1, [w2.getLastD ' '])
          else splitSepGo seps g1 rest
        else splitSepGo seps g1 rest
      | [] => splitSepGo seps g1 rest
    else none

def splitOnSepChar (seps : List Char) (s : Str) : Option (Str × Str) :=
  splitSepGo seps [] s

/-- First match of `^(.+?)\s+by\s+(.+)$/i`. -/
def splitByGo (pre : Str) : Str → Option (Str × Str)
  | [] => none
  | c :: rest =>
    if dotOk c then
      let g1 := pre ++ [c]
      let w1 := rest.takeWhile isJsWs
      let r2 := rest.dropWhile isJsWs
      if 1 ≤ w1.length then
        match litCI "by".data r2 with
        | some r3 =>
          let w2 := r3.takeWhile isJsWs
          let t := r3.dropWhile isJsWs
          if 1 ≤ w2.length then
            if !t.isEmpty && t.all dotOk then some (g1, t)
            else if t.isEmpty && decide (2 ≤ w2.length) && dotOk (w2.getLastD ' ') then
              some (g1, [w2.getLastD ' '])
            else splitByGo g1 rest
          else splitByGo g1 rest
        | none => splitByGo g1 rest
      else splitByGo g1 rest
    else none

def splitBy (s : Str) : Option (Str × Str) := splitByGo [] s

/-- First match of `^.+?[-–—·•:]\s*(.+)$` (no whitespace allowed before the
separator), returning the part after the separator. -/
def titleAfterSepGo : Str → Option Str
  | [] => none
  | c :: rest =>
    if dotOk c then
      match rest with
      | d :: r3 =>
        if d ∈ sepAllChars then
          let w2 := r3.takeWhile isJsWs
          let t := r3.dropWhile isJsWs
          if !t.isEmpty && t.all dotOk then some t
          else if t.isEmpty && decide (1 ≤ w2.length) && dotOk (w2.getLastD ' ') then
            some [w2.getLastD ' ']
          else titleAfterSepGo rest
        else titleAfterSepGo rest
      | [] => none
    else none

def titleAfterSep (s : Str) : Option Str := titleAfterSepGo s

/-!
### `GoogleTakeoutParser` (`src/components/processing-status.tsx`)
-/

/-- Subtitle record of a raw Takeout entry (the `url` field is never read by
the embedded code). -/
structure GTSub where
  name : Str
deriving DecidableEq, Repr

/-- Raw Takeout entry.  `products`/`activityControls` are never read by the
embedded code and are omitted. -/
structure GTEntry where
  header : Str
  title : Str
  titleUrl : Option Str
  subtitles : List GTSub
  time : Str
deriving DecidableEq, Repr

/-- Extracted song info.  JavaScript confidence values are exact decimals;
they are modelled in hundredths (`0.95 ↦ 95`). -/
structure SongInfo where
  title : Str
  artist : Str
  confidence : Nat
deriving DecidableEq, Repr

/-- The cleaned artist taken from the first subtitle entry, when that entry
exists and its raw `name` is non-empty (truthy). -/
def subtitleArtistRaw (e : GTEntry) : Option Str :=
  match e.subtitles with
  | [] => none
  | sub :: _ => if sub.name.isEmpty then none else some (cleanArtistNamePS sub.name)

/-- Strip of the dynamically-built `^escapedArtist\s*[-–—·•:]?\s*` pattern
(the replacement step; the `test` is `startsWithCI`). -/
def stripArtistPat (a ct : Str) : Str :=
  let r1 := ct.drop a.length
  let r2 := dropWs r1
  match r2 with
  | d :: r3 => if d ∈ sepAllChars then dropWs r3 else r2
  | [] => []

/-- The `titlePatterns` fallback inside the subtitle branch: second pattern
`^(.+?)\s+by\s+.+$/i`, whose first group is used when non-empty after trim. -/
def subtitleByTitle (ct : Str) : Str :=
  match (splitBy ct).map (fun p => trimS p.fst) with
  | some t2 => if !t2.isEmpty then t2 else []
  | none => []

/-- Song title computed in the subtitle branch of `extractSongInfo`:
try to strip the artist from the front of the cleaned title; if that empties
the title, try `^.+?[-–—·•:]\s*(.+)$` then `^(.+?)\s+by\s+.+$/i`; finally
fall back to the cleaned title and apply `cleanSongTitle`. -/
def subtitleSongTitle (a ct : Str) : Str :=
  let st0 := if startsWithCI a ct then trimS (stripArtistPat a ct) else ct
  let st1 :=
    if st0.isEmpty then
      match (titleAfterSep ct).map trimS with
      | some t => if !t.isEmpty then t else subtitleByTitle ct
      | none => subtitleByTitle ct
    else st0
  cleanSongTitle (if !st1.isEmpty then st1 else ct)

/-- A separator split together with the non-empty-after-trim guards of the
fallback patterns (`artist && songTitle && lengths > 0` on the trimmed
groups), returning the trimmed `(group1, group2)`. -/
def splitGuard (seps : List Char) (ct : Str) : Option (Str × Str) :=
  match splitOnSepChar seps ct with
  | some (x, y) =>
    let a := trimS x
    let t := trimS y
    if !a.isEmpty && !t.isEmpty then some (a, t) else none
  | none => none

/-- The `by`-split with the same guards, returning trimmed
`(title group, artist group)`. -/
def byGuard (ct : Str) : Option (Str × Str) :=
  match splitBy ct with
  | some (x, y) =>
    let t := trimS x
    let a := trimS y
    if !a.isEmpty && !t.isEmpty then some (t, a) else none
  | none => none

/-- Fallback pattern 1, `"Artist - Song"`, confidence 0.7. -/
def fbDash (ct : Str) : Option SongInfo :=
  (splitGuard dashChars ct).map fun p =>
    ⟨cleanSongTitle p.2, cleanArtistNamePS p.1, 70⟩

/-- Fallback pattern 2, `"Artist · Song"`, confidence 0.7. -/
def fbMiddot (ct : Str) : Option SongInfo :=
  (splitGuard middotChars ct).map fun p =>
    ⟨cleanSongTitle p.2, cleanArtistNamePS p.1, 70⟩

/-- Fallback pattern 3, `"Song by Artist"`, confidence 0.6. -/
def fbBy (ct : Str) : Option SongInfo :=
  (byGuard ct).map fun p =>
    ⟨cleanSongTitle p.1, cleanArtistNamePS p.2, 60⟩

/-- Fallback pattern 4, `"Artist: Song"`, confidence 0.5. -/
def fbColon (ct : Str) : Option SongInfo :=
  (splitGuard [':'] ct).map fun p =>
    ⟨cleanSongTitle p.2, cleanArtistNamePS p.1, 50⟩

/-- Fallback pattern 5, `"Song - Artist"` (the same regex as pattern 1 with
the group roles swapped, hence the same split and the same guard), confidence
0.4. -/
def fbRevDash (ct : Str) : Option SongInfo :=
  match splitOnSepChar dashChars ct with
  | some (x, y) =>
    let a := trimS y
    let t := trimS x
    if !a.isEmpty && !t.isEmpty then
      some ⟨cleanSongTitle t, cleanArtistNamePS a, 40⟩
    else none
  | none => none

/-- The ordered fallback cascade over the cleaned title; when no pattern
matches, the event gets artist `"Unknown Artist"` with confidence 0.2. -/
def fallbackSongInfo (ct : Str) : SongInfo :=
  match fbDash ct with
  | some r => r
  | none =>
    match fbMiddot ct with
    | some r => r
    | none =>
      match fbBy ct with
      | some r => r
      | none =>
        match fbColon ct with
        | some r => r
        | none =>
          match fbRevDash ct with
          | some r => r
          | none => ⟨cleanSongTitle ct, "Unknown Artist".data, 20⟩

/-- `GoogleTakeoutParser.extractSongInfo`. -/
def extractSongInfo (e : GTEntry) : Option SongInfo :=
  if e.title.isEmpty then none
  else
    let ct := cleanTitle e.title
    match subtitleArtistRaw e with
    | some a =>
      if !a.isEmpty then some ⟨subtitleSongTitle a ct, a, 95⟩
      else some (fallbackSongInfo ct)
    | none => some (fallbackSongInfo ct)

/-- Exclusion phrases of `isYouTubeMusicEntry`. -/
def excludeStrs : List Str :=
  ["watched a video that has been removed".data, "watched a private video".data,
   "watched a video".data, "visited youtube.com".data, "searched for".data]

/-- `GoogleTakeoutParser.isYouTubeMusicEntry` (identical in
`src/lib/client/parser.ts`). -/
def isYouTubeMusicEntry (e : GTEntry) : Bool :=
  !e.title.isEmpty && !e.time.isEmpty && e.header == "YouTube Music".data &&
  !(excludeStrs.any (fun p => isSubstr p (lowerS e.title))) &&
  decide (3 ≤ e.title.length) && decide (e.title.length ≤ 200)

/-- Characters of the YouTube-id class `[a-zA-Z0-9_-]`. -/
def ytIdChar (c : Char) : Bool := c.isAlphanum || c = '_' || c = '-'

/-- Consume an exact (case-sensitive) literal. -/
def litEx : Str → Str → Option Str
  | [], r => some r
  | _ :: _, [] => none
  | p :: ps, c :: cs => if c = p then litEx ps cs else none

/-- Take exactly 11 id characters (`{11}`). -/
def take11Id (r : Str) : Option Str :=
  let id := r.take 11
  if decide (id.length = 11) && id.all ytIdChar then some id else none

/-- Match of `(?:youtube\.com\/watch\?v=|youtu\.be\/)([a-zA-Z0-9_-]{11})`
anchored at the current position. -/
def ytPat1At (s : Str) : Option Str :=
  match litEx "youtube.com/watch?v=".data s with
  | some r => take11Id r
  | none =>
    match litEx "youtu.be/".data s with
    | some r => take11Id r
    | none => none

/-- Match of `youtube\.com\/embed\/([a-zA-Z0-9_-]{11})` anchored at the
current position. -/
def ytPat2At (s : Str) : Option Str :=
  match litEx "youtube.com/embed/".data s with
  | some r => take11Id r
  | none => none

/-- Leftmost match: try the position matcher at every suffix. -/
def scanFor {α : Type} (m : Str → Option α) : Str → Option α
  | [] => m []
  | s@(_ :: rest) =>
    match m s with
    | some v => some v
    | none => scanFor m rest

/-- `GoogleTakeoutParser.extractYouTubeId` (identical in
`src/lib/client/parser.ts`). -/
def extractYouTubeId (url : Str) : Option Str :=
  match scanFor ytPat1At url with
  | some v => some v
  | none => scanFor ytPat2At url

/-- A parsed play event (`ParsedSongInfo` with the confidence field of the
processing-status parser); `playedAt` is epoch milliseconds. -/
structure ParsedSongPS where
  title : Str
  artist : Str
  originalTitle : Str
  youtubeId : Option Str
  playedAt : Int
  confidence : Nat
deriving DecidableEq, Repr

/-- `GoogleTakeoutParser.parseSongEntry`, parameterized by the platform date
parser `pt` (the `new Date(entry.time)` collaborator; `none` models an
invalid date). -/
def parseSongEntry (pt : Str → Option Int) (e : GTEntry) : Option ParsedSongPS :=
  match extractSongInfo e with
  | none => none
  | some si =>
    match pt e.time with
    | none => none
    | some ms =>
      some { title := si.title, artist := si.artist, originalTitle := e.title,
             youtubeId :=
               match e.titleUrl with
               | some u => if !u.isEmpty then extractYouTubeId u else none
               | none => none,
             playedAt := ms, confidence := si.confidence }

def MAX_ERRORS : Nat := 100

def errEntryMsg (i : Nat) : Str := ("Error processing entry " ++ toString i).data

def tooManyMsg : Str := "Too many errors encountered, stopping parse".data

structure ParseOutput where
  entries : List ParsedSongPS
  totalEntries : Nat
  musicEntries : Nat
  errors : List Str
deriving DecidableEq, Repr

/-- Main loop of `GoogleTakeoutParser.parseHistoryFile`.  An element `none`
models an array element whose processing throws (e.g. a `null` record, whose
field access raises a `TypeError` caught by the per-record handler); a
well-formed record never throws, because `parseSongEntry` catches its own
errors and returns `null`. -/
def parseHistoryGo (pt : Str → Option Int) :
    List (Option GTEntry) → Nat → Nat → List ParsedSongPS → List Str →
    Nat × List ParsedSongPS × List Str
  | [], _, music, acc, errs => (music, acc, errs)
  | none :: rest, i, music, acc, errs =>
    let errs2 := errs ++ [errEntryMsg i]
    if MAX_ERRORS < errs2.length then (music, acc, errs2 ++ [tooManyMsg])
    else parseHistoryGo pt rest (i + 1) music acc errs2
  | some e :: rest, i, music, acc, errs =>
    if isYouTubeMusicEntry e then
      match parseSongEntry pt e with
      | some p => parseHistoryGo pt rest (i + 1) (music + 1) (acc ++ [p]) errs
      | none => parseHistoryGo pt rest (i + 1) (music + 1) acc errs
    else parseHistoryGo pt rest (i + 1) music acc errs

/-- `GoogleTakeoutParser.parseHistoryFile` after the successful JSON parse of
an array payload. -/
def parseHistoryFile (pt : Str → Option Int) (data : List (Option GTEntry)) :
    ParseOutput :=
  let r := parseHistoryGo pt data 0 0 [] []
  { entries := r.2.1, totalEntries := data.length, musicEntries := r.1,
    errors := r.2.2 }

/-!
### `src/lib/client/parser.ts`: generic-artist detection and
title-based artist re-extraction (used by the aggregator and the resolver)
-/

/-- Generic channel/publisher names of `isGenericArtist`. -/
def genericNames : List Str :=
  ["release", "various artists", "various", "unknown", "unknown artist",
   "music", "songs", "audio", "official", "lyrics", "lyric video",
   "audio library", "no copyright sounds", "ncs", "trap nation",
   "bass nation", "proximity", "mrsuicidesheep", "chill nation",
   "wave music", "vevo", "topic", ""].map String.data

/-- `isGenericArtist` from `src/lib/client/parser.ts`. -/
def isGenericArtist (artist : Str) : Bool :=
  let normalized := trimS (lowerS artist)
  genericNames.any (fun name =>
    normalized == name || (!name.isEmpty && isSubstr name normalized))

/-- Global-replace scan of `String.prototype.replace(pat, "")` with a `g`
flag: remove every non-overlapping leftmost match.  `fuel` bounds the scan by
the string length (every step consumes at least one character, since none of
the patterns used here can match the empty string). -/
def globalStripGo : Nat → (Str → Option Str) → Str → Str
  | 0, _, s => s
  | _ + 1, _, [] => []
  | fuel + 1, m, c :: rest =>
    match m (c :: rest) with
    | some r => globalStripGo fuel m r
    | none => c :: globalStripGo fuel m rest

def globalStrip (m : Str → Option Str) (s : Str) : Str := globalStripGo s.length m s

/-- After a partial match, require `close` and return the rest. -/
def thenClose (close : Char) (o : Option Str) : Option Str :=
  match o with
  | some (c :: rest) => if c = close then some rest else none
  | _ => none

/-- Position match of `/\s*\(Official\s*(Video|Audio|Music Video|Lyric Video|Lyrics)?\)/gi`. -/
def gOfficialParenAt (s : Str) : Option Str :=
  match dropWs s with
  | '(' :: r1 =>
    match litCI "official".data r1 with
    | some r2 =>
      let r3 := dropWs r2
      (thenClose ')' (litCI "video".data r3)).orElse fun _ =>
      (thenClose ')' (litCI "audio".data r3)).orElse fun _ =>
      (thenClose ')' (litCI "music video".data r3)).orElse fun _ =>
      (thenClose ')' (litCI "lyric video".data r3)).orElse fun _ =>
      (thenClose ')' (litCI "lyrics".data r3)).orElse fun _ =>
      (match r3 with | ')' :: rest => some rest | _ => none)
    | none => none
  | _ => none

/-- Position match of `/\s*\[Official\s*(Video|Audio|Music Video|Lyric Video|Lyrics)?\]/gi`. -/
def gOfficialBracketAt (s : Str) : Option Str :=
  match dropWs s with
  | '[' :: r1 =>
    match litCI "official".data r1 with
    | some r2 =>
      let r3 := dropWs r2
      (thenClose ']' (litCI "video".data r3)).orElse fun _ =>
      (thenClose ']' (litCI "audio".data r3)).orElse fun _ =>
      (thenClose ']' (litCI "music video".data r3)).orElse fun _ =>
      (thenClose ']' (litCI "lyric video".data r3)).orElse fun _ =>
      (thenClose ']' (litCI "lyrics".data r3)).orElse fun _ =>
      (match r3 with | ']' :: rest => some rest | _ => none)
    | none => none
  | _ => none

/-- Position match of `/\s*\(Lyrics?\)/gi`. -/
def gLyricsParenAt (s : Str) : Option Str :=
  match dropWs s with
  | '(' :: r1 =>
    match litCI "lyric".data r1 with
    | some r2 =>
      (thenClose ')' (litCI "s".data r2)).orElse fun _ =>
      (match r2 with | ')' :: rest => some rest | _ => none)
    | none => none
  | _ => none

/-- Position match of `/\s*\[Lyrics?\]/gi`. -/
def gLyricsBracketAt (s : Str) : Option Str :=
  match dropWs s with
  | '[' :: r1 =>
    match litCI "lyric".data r1 with
    | some r2 =>
      (thenClose ']' (litCI "s".data r2)).orElse fun _ =>
      (match r2 with | ']' :: rest => some rest | _ => none)
    | none => none
  | _ => none

/-- Position match of a plain `/\s*\(word\)/gi` pattern. -/
def gWordParenAt (w : String) (s : Str) : Option Str :=
  match dropWs s with
  | '(' :: r1 => thenClose ')' (litCI w.data r1)
  | _ => none

/-- Position match of a plain `/\s*\[word\]/gi` pattern. -/
def gWordBracketAt (w : String) (s : Str) : Option Str :=
  match dropWs s with
  | '[' :: r1 => thenClose ']' (litCI w.data r1)
  | _ => none

/-- The suffix-removal chain at the start of `extractArtistFromTitle`. -/
def eafCleanTitle (t : Str) : Str :=
  trimS (globalStrip (gWordBracketAt "hq")
    (globalStrip (gWordParenAt "hq")
      (globalStrip (gWordBracketAt "hd")
        (globalStrip (gWordParenAt "hd")
          (globalStrip (gWordBracketAt "audio")
            (globalStrip (gWordParenAt "audio")
              (globalStrip gLyricsBracketAt
                (globalStrip gLyricsParenAt
                  (globalStrip gOfficialBracketAt
                    (globalStrip gOfficialParenAt t))))))))))

/-- `^\d+$` test used by the artist guards. -/
def allDigits (s : Str) : Bool := !s.isEmpty && s.all isDigitC

/-- Pattern 4 of `extractArtistFromTitle`: `"Artist: Song"`. -/
def eafColon (ct : Str) : Option Str :=
  match splitOnSepChar [':'] ct with
  | some (x, _) =>
    let a := trimS x
    if decide (2 < a.length) && !allDigits a then some a else none
  | none => none

/-- Pattern 3 of `extractArtistFromTitle`: `"Artist | Song"`. -/
def eafPipe (ct : Str) : Option Str :=
  match splitOnSepChar ['|'] ct with
  | some (x, _) =>
    let a := trimS x
    if decide (2 < a.length) && !allDigits a then some a else eafColon ct
  | none => eafColon ct

/-- Pattern 2 of `extractArtistFromTitle`: `"Song by Artist"` (no guard). -/
def eafBy (ct : Str) : Option Str :=
  match splitBy ct with
  | some (_, y) => some (trimS y)
  | none => eafPipe ct

/-- `extractArtistFromTitle` from `src/lib/client/parser.ts`. -/
def extractArtistFromTitle (title : Str) : Option Str :=
  if title.isEmpty then none
  else
    let ct := eafCleanTitle title
    match splitOnSepChar dashChars ct with
    | some (x, _) =>
      let a := trimS x
      if decide (2 < a.length) && !allDigits a then some a else eafBy ct
    | none => eafBy ct

/-!
### `src/lib/client/stats-calculator.ts`
-/

def DEFAULT_SONG_DURATION : Nat := 210

/-- `estimateDuration` (title-pattern duration estimation of the client-side
statistics calculator). -/
def estimateDuration (title : Str) : Nat :=
  let lt := lowerS title
  if isSubstr "extended".data lt || isSubstr "full version".data lt then 360
  else if isSubstr "remix".data lt then 240
  else if isSubstr "live".data lt then 300
  else if isSubstr "acoustic".data lt then 240
  else if isSubstr "radio edit".data lt || isSubstr "short".data lt then 180
  else if isSubstr "intro".data lt || isSubstr "outro".data lt then 90
  else DEFAULT_SONG_DURATION

def natOfDigits (l : Str) : Nat := l.foldl (fun acc c => acc * 10 + (c.toNat - 48)) 0

/-- Position match of `/\((\d{4})\)/` (first pattern of `extractYearFromTitle`). -/
def yearParenAt (s : Str) : Option Nat :=
  match s with
  | '(' :: a :: b :: c :: d :: ')' :: _ =>
    if isDigitC a && isDigitC b && isDigitC c && isDigitC d then
      some (natOfDigits [a, b, c, d])
    else none
  | _ => none

/-- Position match of `/\[(\d{4})\]/`. -/
def yearBracketAt (s : Str) : Option Nat :=
  match s with
  | '[' :: a :: b :: c :: d :: ']' :: _ =>
    if isDigitC a && isDigitC b && isDigitC c && isDigitC d then
      some (natOfDigits [a, b, c, d])
    else none
  | _ => none

/-- Position match of `/[-–—]\s*(\d{4})(?:\s|$)/`. -/
def yearDashAt (s : Str) : Option Nat :=
  match s with
  | d :: r =>
    if d ∈ dashChars then
      match dropWs r with
      | a :: b :: c :: e :: rest2 =>
        if isDigitC a && isDigitC b && isDigitC c && isDigitC e then
          match rest2 with
          | [] => some (natOfDigits [a, b, c, e])
          | x :: _ => if isJsWs x then some (natOfDigits [a, b, c, e]) else none
        else none
      | _ => none
    else none
  | [] => none

/-- Leftmost match of `/\b(19[5-9]\d|20[0-2]\d)\b/`, scanning with the
previous character for the word boundary. -/
def yearWordScan (prev : Option Char) : Str → Option Nat
  | [] => none
  | c :: rest =>
    let boundary := match prev with | none => true | some p => !isWordC p
    let hit : Option Nat :=
      if boundary then
        match c :: rest with
        | a :: b :: c2 :: d :: rest2 =>
          let n2 := c2.toNat
          let ok1 := a = '1' && b = '9' && (53 ≤ n2 && n2 ≤ 57) && isDigitC d
          let ok2 := a = '2' && b = '0' && (48 ≤ n2 && n2 ≤ 50) && isDigitC d
          let bEnd := match rest2 with | [] => true | x :: _ => !isWordC x
          if (ok1 || ok2) && bEnd then some (natOfDigits [a, b, c2, d]) else none
        | _ => none
      else none
    match hit with
    | some v => some v
    | none => yearWordScan (some c) rest

/-- Valid-year check `1950 ≤ y ≤ CURRENT_YEAR + 1` (current year `cy` is a
wall-clock parameter). -/
def validYear (cy : Int) (y : Nat) : Bool :=
  decide (1950 ≤ (y : Int)) && decide ((y : Int) ≤ cy + 1)

/-- `extractYearFromTitle`: four patterns in order; a pattern whose first
match has an out-of-range year falls through to the next pattern. -/
def extractYearFromTitle (cy : Int) (title : Str) : Option Int :=
  if title.isEmpty then none
  else
    ((((scanFor yearParenAt title).filter (validYear cy)).orElse fun _ =>
      ((scanFor yearBracketAt title).filter (validYear cy)).orElse fun _ =>
      ((scanFor yearDashAt title).filter (validYear cy)).orElse fun _ =>
      (yearWordScan none title).filter (validYear cy)).map (Int.ofNat))

/-- Client-side view of cached song metadata (`ISong`) as read by
`calculateStats`.  `releaseYear` abstracts `releaseDate` by the calendar year
`new Date(releaseDate).getFullYear()` would produce. -/
structure SongMeta where
  artist : Str
  duration : Nat
  thumbnail : Option Str
  artistImage : Option Str
  releaseYear : Option Int
deriving DecidableEq, Repr

/-- `metadata.get(youtubeId)` on the metadata map. -/
def mlookup (md : List (Str × SongMeta)) (k : Str) : Option SongMeta :=
  (md.find? (fun p => p.1 == k)).map Prod.snd

/-- A client-side parsed play event (`ParsedSongInfo` of
`src/lib/types/database.ts`); `playedAt` is epoch milliseconds. -/
structure PlayEntry where
  title : Str
  artist : Str
  originalTitle : Str
  youtubeId : Option Str
  playedAt : Int
deriving DecidableEq, Repr

/-- `getDuration`: metadata duration when present and positive, otherwise the
title-pattern estimate. -/
def getDuration (md : List (Str × SongMeta)) (e : PlayEntry) : Nat :=
  match e.youtubeId with
  | some id =>
    match mlookup md id with
    | some sm => if 0 < sm.duration then sm.duration else estimateDuration e.title
    | none => estimateDuration e.title
  | none => estimateDuration e.title

/-- `getArtist`: metadata artist if non-generic, else the parsed artist if
non-generic, else title re-extraction, else the parsed artist unchanged. -/
def getArtist (md : List (Str × SongMeta)) (e : PlayEntry) : Str :=
  let fromMeta : Option Str :=
    match e.youtubeId with
    | some id =>
      match mlookup md id with
      | some sm =>
        if !sm.artist.isEmpty && !isGenericArtist sm.artist then some sm.artist else none
      | none => none
    | none => none
  match fromMeta with
  | some a => a
  | none =>
    if !isGenericArtist e.artist then e.artist
    else
      match extractArtistFromTitle e.originalTitle with
      | some a => if !a.isEmpty then a else e.artist
      | none => e.artist

def getThumbnail (md : List (Str × SongMeta)) (e : PlayEntry) : Option Str :=
  e.youtubeId.bind fun id => (mlookup md id).bind fun sm => sm.thumbnail

def getArtistImage (md : List (Str × SongMeta)) (e : PlayEntry) : Option Str :=
  e.youtubeId.bind fun id => (mlookup md id).bind fun sm => sm.artistImage

/-- `getReleaseYear`: metadata release year when in range, else title
extraction over `originalTitle || title`. -/
def getReleaseYear (md : List (Str × SongMeta)) (cy : Int) (e : PlayEntry) : Option Int :=
  let metaYear : Option Int :=
    match e.youtubeId with
    | some id =>
      match mlookup md id with
      | some sm =>
        match sm.releaseYear with
        | some y => if decide (1950 ≤ y) && decide (y ≤ cy + 1) then some y else none
        | none => none
      | none => none
    | none => none
  match metaYear with
  | some y => some y
  | none =>
    extractYearFromTitle cy (if !e.originalTitle.isEmpty then e.originalTitle else e.title)

/-- `createSongKey`. -/
def createSongKey (artist title : Str) : Str :=
  trimS (lowerS artist) ++ " - ".data ++ trimS (lowerS title)

/-- Calendar-day key of a timestamp.  Abstraction of
`toISOString().split("T")[0]` (and of `setHours(0,0,0,0)` with the process
timezone fixed to UTC): two timestamps get the same key exactly when they
fall on the same UTC date. -/
def epochDay (ms : Int) : Int := Int.fdiv ms 86400000

/-- `${decade}s` string of `getDecadeFromYear`. -/
def getDecadeFromYear (year : Int) : Str :=
  (toString (Int.fdiv year 10 * 10)).data ++ "s".data

structure SongData where
  title : Str
  artist : Str
  songKey : Str
  youtubeId : Option Str
  playCount : Nat
  totalDuration : Nat
  firstPlayed : Int
  lastPlayed : Int
  estimatedDuration : Nat
  thumbnail : Option Str
  artistImage : Option Str
deriving DecidableEq, Repr

structure ArtistData where
  name : Str
  playCount : Nat
  totalDuration : Nat
  songs : List Str
  firstPlayed : Int
  lastPlayed : Int
  artistImage : Option Str
deriving DecidableEq, Repr

structure DailyData where
  date : Int
  playCount : Nat
  totalDuration : Nat
deriving DecidableEq, Repr

structure SongYearData where
  title : Str
  artist : Str
  year : Int
  playCount : Nat
deriving DecidableEq, Repr

/-- JavaScript `Map.set` semantics on an insertion-ordered association list:
update in place when the key exists, append otherwise. -/
def upsert {κ ν : Type} [BEq κ] (k : κ) (f : ν → ν) (init : ν) :
    List (κ × ν) → List (κ × ν)
  | [] => [(k, init)]
  | (k2, v) :: rest => if k2 == k then (k2, f v) :: rest else (k2, v) :: upsert k f init rest

/-- JavaScript `Set.add` on an insertion-ordered list of distinct keys. -/
def setAdd (x : Str) (l : List Str) : List Str := if l.contains x then l else l ++ [x]

/-- Accumulator state of the grouping pass of `calculateStats` (the JS `Map`s
are insertion-ordered association lists). -/
structure AggState where
  songMap : List (Str × SongData)
  artistMap : List (Str × ArtistData)
  dailyMap : List (Int × DailyData)
  songYearMap : List (Str × SongYearData)
  decadeCountMap : List (Str × Nat)
  totalPlaytime : Nat
  firstPlayDate : Option Int
  lastPlayDate : Option Int
deriving DecidableEq, Repr

def initAggState : AggState := ⟨[], [], [], [], [], 0, none, none⟩

/-- Per-entry body of the grouping loop of `calculateStats` (lines 288-401 of
`stats-calculator.ts`). -/
def statsStep (md : List (Str × SongMeta)) (cy : Int) (st : AggState) (e : PlayEntry) :
    AggState :=
  let artist := getArtist md e
  let songKey := createSongKey artist e.title
  let duration := getDuration md e
  let day := epochDay e.playedAt
  let totalPlaytime := st.totalPlaytime + duration
  let firstPlayDate :=
    match st.firstPlayDate with
    | none => some e.playedAt
    | some f => if e.playedAt < f then some e.playedAt else some f
  let lastPlayDate :=
    match st.lastPlayDate with
    | none => some e.playedAt
    | some f => if f < e.playedAt then some e.playedAt else some f
  let songMap := upsert songKey
    (fun s =>
      { s with
        playCount := s.playCount + 1
        totalDuration := s.totalDuration + duration
        firstPlayed := if e.playedAt < s.firstPlayed then e.playedAt else s.firstPlayed
        lastPlayed := if s.lastPlayed < e.playedAt then e.playedAt else s.lastPlayed
        thumbnail := match s.thumbnail with
                     | some t => some t
                     | none => getThumbnail md e
        artistImage := match s.artistImage with
                       | some t => some t
                       | none => getArtistImage md e })
    { title := e.title, artist := artist, songKey := songKey, youtubeId := e.youtubeId,
      playCount := 1, totalDuration := duration, firstPlayed := e.playedAt,
      lastPlayed := e.playedAt, estimatedDuration := duration,
      thumbnail := getThumbnail md e, artistImage := getArtistImage md e }
    st.songMap
  let artistKey := trimS (lowerS artist)
  let artistMap := upsert artistKey
    (fun a =>
      { a with
        playCount := a.playCount + 1
        totalDuration := a.totalDuration + duration
        songs := setAdd songKey a.songs
        firstPlayed := if e.playedAt < a.firstPlayed then e.playedAt else a.firstPlayed
        lastPlayed := if a.lastPlayed < e.playedAt then e.playedAt else a.lastPlayed
        artistImage := match a.artistImage with
                       | some t => some t
                       | none => getArtistImage md e })
    { name := artist, playCount := 1, totalDuration := duration, songs := [songKey],
      firstPlayed := e.playedAt, lastPlayed := e.playedAt,
      artistImage := getArtistImage md e }
    st.artistMap
  let dailyMap := upsert day
    (fun d => { d with playCount := d.playCount + 1, totalDuration := d.totalDuration + duration })
    { date := day, playCount := 1, totalDuration := duration }
    st.dailyMap
  match getReleaseYear md cy e with
  | some y =>
    { songMap := songMap, artistMap := artistMap, dailyMap := dailyMap
      songYearMap := upsert songKey (fun sy => { sy with playCount := sy.playCount + 1 })
        { title := e.title, artist := artist, year := y, playCount := 1 } st.songYearMap
      decadeCountMap := upsert (getDecadeFromYear y) (fun c => c + 1) 1 st.decadeCountMap
      totalPlaytime := totalPlaytime, firstPlayDate := firstPlayDate,
      lastPlayDate := lastPlayDate }
  | none =>
    { songMap := songMap, artistMap := artistMap, dailyMap := dailyMap
      songYearMap := st.songYearMap, decadeCountMap := st.decadeCountMap
      totalPlaytime := totalPlaytime, firstPlayDate := firstPlayDate,
      lastPlayDate := lastPlayDate }

/-- Device-capability classification driving the batch size. -/
inductive Capability
  | high
  | low
deriving DecidableEq, Repr

/-- `batchSize = capability === "high" ? 2000 : 500`. -/
def batchSizeOf : Capability → Nat
  | .high => 2000
  | .low => 500

/-- The chunked grouping loop: process a chunk of `b` entries with the
per-entry step, then continue with the rest (progress reporting and
yield-to-browser between chunks have no effect on the accumulator and are not
modelled). -/
def processChunks (md : List (Str × SongMeta)) (cy : Int) (b : Nat) :
    AggState → List PlayEntry → AggState
  | st, [] => st
  | st, e :: rest =>
    processChunks md cy b
      (List.foldl (statsStep md cy) st (e :: rest.take (b - 1)))
      (rest.drop (b - 1))
termination_by _ l => l.length
decreasing_by simp [List.length_drop]; omega

/-- Stable ascending insertion by an integer key: an element is placed after
every earlier element with a key less than or equal to its own (the stable
JavaScript `sort((a, b) => key a - key b)`). -/
def insertAsc {α : Type} (key : α → Int) (x : α) : List α → List α
  | [] => [x]
  | y :: ys => if key x < key y then x :: y :: ys else y :: insertAsc key x ys

def sortAsc {α : Type} (key : α → Int) (l : List α) : List α :=
  l.foldl (fun acc x => insertAsc key x acc) []

/-- Stable descending insertion by a natural key (the stable JavaScript
`sort((a, b) => key b - key a)`). -/
def insertDescBy {α : Type} (key : α → Nat) (x : α) : List α → List α
  | [] => [x]
  | y :: ys => if key y < key x then x :: y :: ys else y :: insertDescBy key x ys

def sortDescBy {α : Type} (key : α → Nat) (l : List α) : List α :=
  l.foldl (fun acc x => insertDescBy key x acc) []

/-- Session-segmentation loop of `calculateStats` (lines 484-501): fold over
the time-sorted entries with the running longest/current totals and the
previous timestamp. -/
def sessionGo (md : List (Str × SongMeta)) (L C : Nat) (prev : Int) :
    List PlayEntry → Nat
  | [] => max L C
  | e :: rest =>
    if e.playedAt - prev ≤ 3600000 then
      sessionGo md L (C + getDuration md e) e.playedAt rest
    else
      sessionGo md (max L C) (getDuration md e) e.playedAt rest

/-- `longestSession` computed from a list of entries (already sorted by
`playedAt` when called from `calculateStats`). -/
def longestSessionOf (md : List (Str × SongMeta)) : List PlayEntry → Nat
  | [] => 0
  | e :: rest => sessionGo md 0 (getDuration md e) e.playedAt rest

/-- `Math.ceil(a / b)` on non-negative integers. -/
def ceilDiv (a b : Nat) : Nat := (a + b - 1) / b

/-- `Math.round(w / t)` on an exact ratio (`floor(x + 1/2)`). -/
def jsRoundDiv (w : Int) (t : Nat) : Int := Int.fdiv (2 * w + t) (2 * t)

/-- `getEraDescription` (`{early|mid|late} {decade}s`; source years are
always ≥ 1950, where JavaScript `%` agrees with `Int.emod`). -/
def getEraDescription (year : Int) : Str :=
  let decade := Int.fdiv year 10 * 10
  let yearInDecade := year % 10
  let period := if yearInDecade ≤ 3 then "early" else if yearInDecade ≤ 6 then "mid" else "late"
  period.data ++ " ".data ++ (toString decade).data ++ "s".data

/-- `Math.round((count / total) * 100)` for the decade distribution. -/
def decadePct (c T : Nat) : Nat := (200 * c + T) / (2 * T)

structure TopSong where
  key : Str
  title : Str
  artist : Str
  youtubeId : Option Str
  duration : Nat
  playCount : Nat
  totalDuration : Nat
  thumbnail : Option Str
  artistImage : Option Str
deriving DecidableEq, Repr

structure TopArtist where
  name : Str
  playCount : Nat
  totalDuration : Nat
  uniqueSongs : Nat
  artistImage : Option Str
deriving DecidableEq, Repr

structure DecadeEntry where
  decade : Str
  count : Nat
  percentage : Nat
deriving DecidableEq, Repr

structure YearSong where
  title : Str
  artist : Str
  year : Int
deriving DecidableEq, Repr

/-- The final `IUserStats` record assembled by `calculateStats` (dates are
epoch values, exact rationals stand for JavaScript float averages). -/
structure IUserStats where
  totalSongs : Nat
  totalArtists : Nat
  totalPlaytime : Nat
  averageSongLength : ℚ
  topArtist : Option Str
  topSong : Option Str
  firstPlayDate : Option Int
  lastPlayDate : Option Int
  totalListens : Nat
  monthlyPlaytime : Nat
  dailyAverageListens : ℚ
  dailyAveragePlaytime : ℚ
  longestListenDay : Option Int
  longestListenDayDuration : Nat
  longestSession : Nat
  topSongs : List TopSong
  topArtists : List TopArtist
  newArtistsThisMonth : Nat
  totalNewArtists : Nat
  listeningAge : Option Int
  averageReleaseYear : Option Int
  musicEra : Option Str
  decadeDistribution : Option (List DecadeEntry)
  oldestSong : Option YearSong
  newestSong : Option YearSong
  songsWithYearCount : Nat
deriving DecidableEq, Repr

/-- Accumulator of the song-age loop of `calculateStats`. -/
structure AgeAcc where
  totalWeightedYear : Int
  totalWeight : Nat
  oldestYear : Int
  newestYear : Int
  oldest : Option YearSong
  newest : Option YearSong
deriving DecidableEq, Repr

def ageStep (acc : AgeAcc) (sy : SongYearData) : AgeAcc :=
  let acc1 :=
    { acc with
      totalWeightedYear := acc.totalWeightedYear + sy.year * sy.playCount
      totalWeight := acc.totalWeight + sy.playCount }
  let acc2 :=
    if sy.year < acc1.oldestYear then
      { acc1 with
        oldestYear := sy.year
        oldest := some ⟨sy.title, sy.artist, sy.year⟩ }
    else acc1
  if acc2.newestYear < sy.year then
    { acc2 with
      newestYear := sy.year
      newest := some ⟨sy.title, sy.artist, sy.year⟩ }
  else acc2

/-- Post-grouping assembly of the `IUserStats` record from the accumulator
state (`calculateStats` lines 413-669).  `monthStart` is the epoch day of the
start of the current month (a wall-clock parameter). -/
def buildStats (md : List (Str × SongMeta)) (cy monthStart : Int)
    (entries : List PlayEntry) (st : AggState) : IUserStats :=
  let topSongs := ((sortDescBy (fun (s : SongData) => s.playCount)
      (st.songMap.map Prod.snd)).take 10).map fun s =>
    ({ key := s.songKey, title := s.title, artist := s.artist,
       youtubeId := s.youtubeId, duration := s.estimatedDuration,
       playCount := s.playCount, totalDuration := s.totalDuration,
       thumbnail := s.thumbnail, artistImage := s.artistImage } : TopSong)
  let topArtists := ((sortDescBy (fun (a : ArtistData) => a.playCount)
      ((st.artistMap.map Prod.snd).filter
        (fun a => !(lowerS a.name == "release".data)))).take 10).map fun a =>
    ({ name := a.name, playCount := a.playCount, totalDuration := a.totalDuration,
       uniqueSongs := a.songs.length, artistImage := a.artistImage } : TopArtist)
  let longestDay := (st.dailyMap.map Prod.snd).foldl
    (fun mx d => if mx.2.2 < d.totalDuration then (some d.date, d.playCount, d.totalDuration) else mx)
    ((none : Option Int), (0 : Nat), (0 : Nat))
  let sortedEntries := sortAsc (fun e => e.playedAt) entries
  let longestSession := longestSessionOf md sortedEntries
  let totalDays :=
    match st.firstPlayDate, st.lastPlayDate with
    | some f, some l => max 1 (ceilDiv (l - f).toNat 86400000)
    | _, _ => 1
  let totalListens := entries.length
  let monthlyPlaytime := (entries.filter (fun e => monthStart ≤ epochDay e.playedAt)).foldl
    (fun acc e => acc + getDuration md e) 0
  let newArtistsThisMonth := ((st.artistMap.map Prod.snd).filter
    (fun a => monthStart ≤ epochDay a.firstPlayed)).length
  let songYears := st.songYearMap.map Prod.snd
  let haveYears := !songYears.isEmpty
  let ages := songYears.foldl ageStep
    { totalWeightedYear := 0, totalWeight := 0, oldestYear := cy, newestYear := 1900,
      oldest := none, newest := none }
  let averageReleaseYear :=
    if haveYears then
      (if 0 < ages.totalWeight then
        some (jsRoundDiv ages.totalWeightedYear ages.totalWeight)
      else none)
    else none
  let decadeDistribution :=
    if haveYears then
      (let total := (st.decadeCountMap.map Prod.snd).sum
       if 0 < total then
         some (sortDescBy (fun (d : DecadeEntry) => d.count)
           (st.decadeCountMap.map fun p => ⟨p.1, p.2, decadePct p.2 total⟩))
       else none)
    else none
  { totalSongs := st.songMap.length
    totalArtists := st.artistMap.length
    totalPlaytime := st.totalPlaytime
    averageSongLength :=
      if 0 < totalListens then (st.totalPlaytime : ℚ) / (totalListens : ℚ)
      else (DEFAULT_SONG_DURATION : ℚ)
    topArtist := topArtists.head?.map (fun a => a.name)
    topSong := topSongs.head?.map (fun s => s.artist ++ " - ".data ++ s.title)
    firstPlayDate := st.firstPlayDate
    lastPlayDate := st.lastPlayDate
    totalListens := totalListens
    monthlyPlaytime := monthlyPlaytime
    dailyAverageListens := (totalListens : ℚ) / (totalDays : ℚ)
    dailyAveragePlaytime := (st.totalPlaytime : ℚ) / (totalDays : ℚ)
    longestListenDay := longestDay.1
    longestListenDayDuration := longestDay.2.2
    longestSession := longestSession
    topSongs := topSongs
    topArtists := topArtists
    newArtistsThisMonth := newArtistsThisMonth
    totalNewArtists := st.artistMap.length
    listeningAge := averageReleaseYear.map (fun a => cy - a)
    averageReleaseYear := averageReleaseYear
    musicEra := averageReleaseYear.map getEraDescription
    decadeDistribution := decadeDistribution
    oldestSong := if haveYears then ages.oldest else none
    newestSong := if haveYears then ages.newest else none
    songsWithYearCount := st.songYearMap.length }

/-- `calculateStats`: chunked grouping pass followed by the assembly. -/
def calculateStats (cap : Capability) (md : List (Str × SongMeta))
    (cy monthStart : Int) (entries : List PlayEntry) : IUserStats :=
  buildStats md cy monthStart entries
    (processChunks md cy (batchSizeOf cap) initAggState entries)

/-!
### The metadata resolver (`lookupSongs` server action) and its ISO-8601
duration parsing
-/

/-- Leftmost occurrence of the literal `PT` (the anchor-free regex
`/PT(?:(\d+)H)?(?:(\d+)M)?(?:(\d+)S)?/` always succeeds at the first `PT`,
all groups being optional). -/
def findPTsuffix : Str → Option Str
  | [] => none
  | c :: rest =>
    match rest with
    | [] => none
    | c2 :: r2 => if c = 'P' ∧ c2 = 'T' then some r2 else findPTsuffix rest

/-- One optional component `(?:(\d+)X)?`: a non-empty maximal digit run
followed by the unit character consumes both, otherwise the position is
unchanged and the component value is 0. -/
def compParse (unit : Char) (s : Str) : Nat × Str :=
  let ds := s.takeWhile isDigitC
  let r := s.dropWhile isDigitC
  match r with
  | x :: r2 => if x = unit && !ds.isEmpty then (natOfDigits ds, r2) else (0, s)
  | [] => (0, s)

/-- `parseISO8601Duration` from the `lookupSongs` server action: seconds from
`PT#H#M#S`, default 210 when the regex does not match (no `PT` anywhere). -/
def parseISO8601Duration (s : Str) : Nat :=
  match findPTsuffix s with
  | none => 210
  | some r =>
    let (h, r1) := compParse 'H' r
    let (m, r2) := compParse 'M' r1
    let (sec, _) := compParse 'S' r2
    h * 3600 + m * 60 + sec

/-- `YouTubeService.parseDuration` (`src/components/processing-status.tsx`):
same component parsing, but it requires the token to start with `PT` and its
default is 0, not 210. -/
def parseDurationYT (s : Str) : Nat :=
  match s with
  | 'P' :: 'T' :: r =>
    let (h, r1) := compParse 'H' r
    let (m, r2) := compParse 'M' r1
    let (sec, _) := compParse 'S' r2
    h * 3600 + m * 60 + sec
  | _ => 0

/-- `PT#H#M#S` token for concrete component values. -/
def mkPTtoken (h m s : Nat) : Str :=
  "PT".data ++ (toString h).data ++ ['H'] ++ (toString m).data ++ ['M'] ++
    (toString s).data ++ ['S']

/-!
### `SongDurationService.estimateFromTitlePatterns` (duration estimator)
-/

/-- Result triple of the duration estimator; confidence in hundredths. -/
structure Estimate where
  duration : Nat
  method : Str
  confidence : Nat
deriving DecidableEq, Repr

/-- `SongDurationService.estimateFromTitlePatterns`. -/
def estimateFromTitlePatterns (title : Str) : Estimate :=
  let lt := lowerS title
  if isSubstr "intro".data lt && !isSubstr "introduction".data lt then
    ⟨90, "title-pattern".data, 85⟩
  else if isSubstr "outro".data lt || isSubstr "interlude".data lt then
    ⟨120, "title-pattern".data, 85⟩
  else if isSubstr "extended".data lt || isSubstr "extended mix".data lt then
    ⟨390, "title-pattern".data, 80⟩
  else if isSubstr "radio edit".data lt then
    ⟨195, "title-pattern".data, 90⟩
  else if isSubstr "club mix".data lt || isSubstr "club remix".data lt then
    ⟨345, "title-pattern".data, 85⟩
  else if isSubstr "remix".data lt && !isSubstr "radio".data lt then
    ⟨270, "title-pattern".data, 75⟩
  else if isSubstr "live".data lt && !isSubstr "olive".data lt then
    ⟨285, "title-pattern".data, 70⟩
  else if isSubstr "acoustic".data lt then
    ⟨200, "title-pattern".data, 75⟩
  else if isSubstr "demo".data lt then
    ⟨180, "title-pattern".data, 70⟩
  else if isSubstr "instrumental".data lt then
    ⟨210, "title-pattern".data, 75⟩
  else ⟨0, "title-pattern".data, 0⟩

/-!
### `lookupSongs` (server action of `src/unnamed/part_002`)

The authorization/origin checks are external collaborators; the embedding
models the authorized path.  The database cache is a list of stored songs,
the YouTube provider is a per-id function (the 50-id batching and per-batch
failure skipping of `fetchFromYouTubeAPI` only affect which ids get a
response, which the per-id function already expresses), and channel images
are a per-channel-id function.  Cache upserts have no effect on the returned
value and are not modelled.
-/

def MAX_VIDEO_IDS : Nat := 8000

/-- A cached `Song` document as read back from the database. -/
structure CacheSong where
  youtubeId : Str
  key : Str
  title : Str
  artist : Str
  duration : Nat
  channelTitle : Option Str
  thumbnail : Option Str
  artistImage : Option Str
  releaseYear : Option Int
deriving DecidableEq, Repr

/-- The per-id `ISong` value returned to the client. -/
structure ClientSong where
  key : Str
  youtubeId : Str
  title : Str
  artist : Str
  duration : Nat
  channelTitle : Str
  thumbnail : Option Str
  artistImage : Option Str
  releaseYear : Option Int
deriving DecidableEq, Repr

/-- A raw item of the provider response (`snippet`/`contentDetails` view);
`releaseYear` abstracts `publishedAt` by its calendar year, `thumbnail` is
the `getBestThumbnail` choice (priority maxres > high > medium > default). -/
structure RawVideoItem where
  durationToken : Option Str
  channelTitle : Option Str
  channelId : Option Str
  title : Option Str
  thumbnail : Option Str
  releaseYear : Option Int
deriving DecidableEq, Repr

/-- Generic-artist correction applied in `lookupSongs` and
`fetchFromYouTubeAPI`: re-derive from the title, else `"Unknown Artist"`. -/
def correctedArtist (artist title : Str) : Str :=
  if isGenericArtist artist then
    match extractArtistFromTitle title with
    | some a => if !a.isEmpty then a else "Unknown Artist".data
    | none => "Unknown Artist".data
  else artist

/-- Per-cached-song processing of step 1 of `lookupSongs`. -/
def processCached (s : CacheSong) : ClientSong :=
  { key := s.key, youtubeId := s.youtubeId, title := s.title,
    artist := correctedArtist s.artist s.title, duration := s.duration,
    channelTitle := s.channelTitle.getD s.artist, thumbnail := s.thumbnail,
    artistImage := s.artistImage, releaseYear := s.releaseYear }

/-- Per-item processing of `fetchFromYouTubeAPI` (duration token parsing,
artist cleanup with generic correction, key derivation, channel image). -/
def processFetched (chImg : Str → Option Str) (id : Str) (it : RawVideoItem) :
    ClientSong :=
  let duration := parseISO8601Duration (it.durationToken.getD "PT0S".data)
  let channelTitle := it.channelTitle.getD []
  let videoTitle := it.title.getD []
  let artist := correctedArtist (cleanArtistName channelTitle) videoTitle
  { key := lowerS artist ++ " - ".data ++ lowerS videoTitle,
    youtubeId := id, title := videoTitle, artist := artist, duration := duration,
    channelTitle := channelTitle, thumbnail := it.thumbnail,
    artistImage := it.channelId.bind chImg, releaseYear := it.releaseYear }

/-- JavaScript `Map.set` (overwrite in place, append when absent). -/
def mapSet {α : Type} (k : Str) (v : α) : List (Str × α) → List (Str × α)
  | [] => [(k, v)]
  | (k2, v2) :: rest => if k2 == k then (k2, v) :: rest else (k2, v2) :: mapSet k v rest

/-- `Map.get`. -/
def mapGet {α : Type} (m : List (Str × α)) (k : Str) : Option α :=
  (m.find? (fun p => p.1 == k)).map Prod.snd

/-- `[...new Set(l)]`: deduplicate keeping first occurrences. -/
def dedupGo (seen : List Str) : List Str → List Str
  | [] => []
  | x :: rest =>
    if seen.contains x then dedupGo seen rest
    else x :: dedupGo (seen ++ [x]) rest

def dedupKeepFirst (l : List Str) : List Str := dedupGo [] l

structure LookupStats where
  requested : Nat
  cached : Nat
  fetched : Nat
  notFound : Int
deriving DecidableEq, Repr

structure LookupResult where
  success : Bool
  data : Option (List (Str × ClientSong))
  stats : Option LookupStats
  error : Option Str
deriving DecidableEq, Repr

/-- One provider lookup of the re-fetch loop: add the processed item for the
id when the provider has it, otherwise leave the map unchanged. -/
def fetchStep (provider : Str → Option RawVideoItem) (chImg : Str → Option Str)
    (m : List (Str × ClientSong)) (id : Str) : List (Str × ClientSong) :=
  match provider id with
  | some it => mapSet id (processFetched chImg id it) m
  | none => m

/-- `lookupSongs` after the authorization checks: input validation, 8000-id
cap, cache read, re-fetch of missing/thumbnail-less ids, merge, stats. -/
def lookupSongs (cache : List CacheSong) (hasApiKey : Bool)
    (provider : Str → Option RawVideoItem) (chImg : Str → Option Str)
    (videoIds : List Str) : LookupResult :=
  if videoIds.isEmpty then
    { success := false, data := none, stats := none,
      error := some "Invalid video IDs".data }
  else
    let limitedIds := videoIds.take MAX_VIDEO_IDS
    let cachedSongs := cache.filter (fun s => limitedIds.contains s.youtubeId)
    let cachedMap := cachedSongs.foldl (fun m s => mapSet s.youtubeId (processCached s) m) []
    let missingIds := limitedIds.filter (fun id => (mapGet cachedMap id).isNone)
    let idsNeedingThumbnails := limitedIds.filter (fun id =>
      match mapGet cachedMap id with
      | some c => c.thumbnail.isNone
      | none => false)
    let idsToFetch := dedupKeepFirst (missingIds ++ idsNeedingThumbnails)
    let newSongs :=
      if !idsToFetch.isEmpty && hasApiKey then
        idsToFetch.foldl (fetchStep provider chImg) []
      else []
    let allSongs := newSongs.foldl (fun m p => mapSet p.1 p.2 m) cachedMap
    { success := true, data := some allSongs,
      stats := some
        { requested := limitedIds.length, cached := cachedMap.length,
          fetched := newSongs.length,
          notFound := (limitedIds.length : Int) - cachedMap.length - newSongs.length },
      error := none }

/-!
### Specification-side reference definitions

Used to state the claims: gap-based session segmentation as described by the
spec, and the reference (non-aborting) parse of a record list.
-/

/-- Session groups from the spec's words: extend the current session while
the gap from the previous event's timestamp is at most 3600 seconds,
otherwise close it and start a new one; the final open session is kept. -/
def splitSessionsGo (cur : List PlayEntry) (prev : Int) :
    List PlayEntry → List (List PlayEntry)
  | [] => [cur]
  | e :: rest =>
    if e.playedAt - prev ≤ 3600000 then splitSessionsGo (cur ++ [e]) e.playedAt rest
    else cur :: splitSessionsGo [e] e.playedAt rest

def splitSessions : List PlayEntry → List (List PlayEntry)
  | [] => []
  | e :: rest => splitSessionsGo [e] e.playedAt rest

/-- Total duration of a session group. -/
def sessionTotal (md : List (Str × SongMeta)) (g : List PlayEntry) : Nat :=
  (g.map (getDuration md)).sum

/-- Session sums in segmentation order (proof intermediary between the fold
and the groups). -/
def sessSums (md : List (Str × SongMeta)) (C : Nat) (prev : Int) :
    List PlayEntry → List Nat
  | [] => [C]
  | e :: rest =>
    if e.playedAt - prev ≤ 3600000 then sessSums md (C + getDuration md e) e.playedAt rest
    else C :: sessSums md (getDuration md e) e.playedAt rest

/-- Number of throwing records in a payload. -/
def countThrows (data : List (Option GTEntry)) : Nat :=
  (data.filter Option.isNone).length

/-- Reference music-entry count of a non-aborting parse. -/
def refMusicCount (data : List (Option GTEntry)) : Nat :=
  ((data.filterMap id).filter (fun e => isYouTubeMusicEntry e)).length

/-- Reference event list of a non-aborting parse: every well-formed
qualifying record through `parseSongEntry`. -/
def refEntries (pt : Str → Option Int) (data : List (Option GTEntry)) :
    List ParsedSongPS :=
  ((data.filterMap id).filter (fun e => isYouTubeMusicEntry e)).filterMap
    (parseSongEntry pt)

/-- The records strictly before the `n`-th throwing record. -/
def beforeNthNone (n : Nat) : List (Option GTEntry) → List (Option GTEntry)
  | [] => []
  | none :: rest => if n ≤ 1 then [] else none :: beforeNthNone (n - 1) rest
  | some e :: rest => some e :: beforeNthNone n rest

/-- Reference per-record error messages of a parse starting at index `i`: one
message per throwing record, at its index. -/
def refErrorsFrom (i : Nat) : List (Option GTEntry) → List Str
  | [] => []
  | none :: rest => errEntryMsg i :: refErrorsFrom (i + 1) rest
  | some _ :: rest => refErrorsFrom (i + 1) rest

/-- Trigger condition of the `"intro"` tier (the code excludes titles
containing `"introduction"`). -/
def tpIntro (lt : Str) : Bool :=
  isSubstr "intro".data lt && !isSubstr "introduction".data lt

def tpOutro (lt : Str) : Bool :=
  isSubstr "outro".data lt || isSubstr "interlude".data lt

def tpExtended (lt : Str) : Bool :=
  isSubstr "extended".data lt || isSubstr "extended mix".data lt

def tpRadioEdit (lt : Str) : Bool := isSubstr "radio edit".data lt

def tpClub (lt : Str) : Bool :=
  isSubstr "club mix".data lt || isSubstr "club remix".data lt

/-- Trigger condition of the generic `"remix"` tier (the code excludes any
title containing `"radio"`). -/
def tpRemix (lt : Str) : Bool :=
  isSubstr "remix".data lt && !isSubstr "radio".data lt

def tpLive (lt : Str) : Bool :=
  isSubstr "live".data lt && !isSubstr "olive".data lt

def tpAcoustic (lt : Str) : Bool := isSubstr "acoustic".data lt

def tpDemo (lt : Str) : Bool := isSubstr "demo".data lt

def tpInstrumental (lt : Str) : Bool := isSubstr "instrumental".data lt

/-- Head character is absent or not whitespace. -/
def headOk (l : Str) : Bool :=
  match l with
  | [] => true
  | c :: _ => !isJsWs c

/-- Whitespace-normal form: every whitespace character is a plain space and
no two whitespace characters are adjacent (the shape produced by
`replace(/\s+/g, " ")`). -/
def spacesSingle : Str → Bool
  | [] => true
  | [c] => !isJsWs c || c == ' '
  | c1 :: c2 :: rest =>
    (!isJsWs c1 || (c1 == ' ' && !isJsWs c2)) && spacesSingle (c2 :: rest)

/-- No strip rule of `cleanTitle` rewrites `y`: the residual condition under
which a further cleanup application is the identity. -/
abbrev cleanStable (y : Str) : Prop :=
  stripWatched y = y ∧
  stripEndPat 0 bodyOfficialParen y = y ∧
  stripEndPat 0 bodyOfficialBracket y = y ∧
  stripEndPat 0 bodyDashOfficial y = y ∧
  stripEndPat 0 bodyLyricsParen y = y ∧
  stripEndPat 0 bodyLyricsBracket y = y ∧
  stripEndPat 0 bodyHdBracket y = y ∧
  stripEndPat 0 bodyHdParen y = y ∧
  stripEndPat 0 bodyYearParen y = y

/-!
## Theorems

Sanity evaluations of the embedding, helper lemmas, and one theorem (plus
counterexamples/witnesses) per claim.
-/

example : cleanTitle "Song (Official Video)".data = "Song".data := by decide
example : cleanTitle "watched Song [HD]".data = "Song".data := by decide
example : cleanTitle "A  -  B (2019)".data = "A - B".data := by decide
example : cleanSongTitle "Tune feat. Someone".data = "Tune".data := by decide
example : cleanArtistNamePS "Artist - Topic".data = "Artist".data := by decide
example : cleanArtistName "Cool Music".data = "Cool".data := by decide
example : splitOnSepChar dashChars "AC - DC".data = some ("AC".data, "DC".data) := by decide
example : fallbackSongInfo "Song by Artist".data =
    ⟨"Song".data, "Artist".data, 60⟩ := by decide
example : extractSongInfo
    { header := "YouTube Music".data, title := "Artist - Tune".data, titleUrl := none,
      subtitles := [⟨"Artist - Topic".data⟩], time := "t".data } =
    some ⟨"Tune".data, "Artist".data, 95⟩ := by decide

/-!
### Claim C6: ISO-8601 duration parsing
-/

theorem digits_split (l : Str) (c : Char) (t : Str) (hl : l.all isDigitC = true)
    (hc : isDigitC c = false) :
    (l ++ c :: t).takeWhile isDigitC = l ∧ (l ++ c :: t).dropWhile isDigitC = c :: t := by
  induction l with
  | nil => simp [List.takeWhile_cons, List.dropWhile_cons, hc]
  | cons d ds ih =>
    simp only [List.all_cons, Bool.and_eq_true] at hl
    have h := ih hl.2
    simp [List.takeWhile_cons, List.dropWhile_cons, hl.1, h.1, h.2]

theorem compParse_run (u : Char) (l t : Str) (hl : l.all isDigitC = true) (hne : l ≠ [])
    (hu : isDigitC u = false) :
    compParse u (l ++ u :: t) = (natOfDigits l, t) := by
  have h := digits_split l u t hl hu
  have hne2 : l.isEmpty = false := by
    cases l with
    | nil => exact absurd rfl hne
    | cons a as => rfl
  simp [compParse, h.1, h.2, hne2]

theorem findPT_none_of_not_sub : ∀ t : Str, isSubstr "PT".data t = false → findPTsuffix t = none := by
  intro t
  induction t with
  | nil => intro _; rfl
  | cons c rest ih =>
    intro h
    simp only [isSubstr, Bool.or_eq_false_iff] at h
    obtain ⟨h1, h2⟩ := h
    cases rest with
    | nil => simp [findPTsuffix]
    | cons c2 r2 =>
      simp only [findPTsuffix]
      have hPT : ¬(c = 'P' ∧ c2 = 'T') := by
        rintro ⟨rfl, rfl⟩
        simp [List.isPrefixOf, String.data] at h1
      rw [if_neg hPT]
      exact ih h2

/-- Claim C6 counterexample: `"PT5X"` is not of the shape `PT#H#M#S` and so is
unparsable as a duration, yet the parser returns 0 (all components default to
0 because the regex still matches at `PT`), not the claimed 210-second
default. -/
theorem C6_counterexample :
    parseISO8601Duration "PT5X".data = 0 ∧ parseISO8601Duration "PT5X".data ≠ 210 := by
  decide

/-- Claim C6 (amended): for every token of the shape `PT#H#M#S` the parser
returns `hours*3600 + minutes*60 + seconds`; the 210-second default is
returned exactly for tokens in which the literal `PT` does not occur; a token
containing `PT` but no parsable component (such as `"PT"` itself) yields 0
from the defaulted components, not 210. -/
theorem C6_duration_parsing :
    (∀ hd md sd : Str, hd.all isDigitC = true → hd ≠ [] →
      md.all isDigitC = true → md ≠ [] → sd.all isDigitC = true → sd ≠ [] →
      parseISO8601Duration ("PT".data ++ hd ++ 'H' :: md ++ 'M' :: sd ++ ['S']) =
        natOfDigits hd * 3600 + natOfDigits md * 60 + natOfDigits sd) ∧
    (∀ t : Str, isSubstr "PT".data t = false → parseISO8601Duration t = 210) ∧
    parseISO8601Duration "PT".data = 0 := by
  refine ⟨?_, ?_, by decide⟩
  · intro hd md sd h1 hne1 h2 hne2 h3 hne3
    have hfind : findPTsuffix ("PT".data ++ hd ++ 'H' :: md ++ 'M' :: sd ++ ['S']) =
        some (hd ++ 'H' :: md ++ 'M' :: sd ++ ['S']) := by
      simp [findPTsuffix, String.data]
    have hH := compParse_run 'H' hd (md ++ 'M' :: sd ++ ['S']) h1 hne1 (by decide)
    have hM := compParse_run 'M' md (sd ++ ['S']) h2 hne2 (by decide)
    have hS := compParse_run 'S' sd [] h3 hne3 (by decide)
    simp only [parseISO8601Duration, List.append_assoc, List.cons_append,
      List.nil_append] at *
    rw [hfind]
    dsimp only
    rw [hH, hM, hS]
  · intro t ht
    simp [parseISO8601Duration, findPT_none_of_not_sub t ht]

/-- Witness for the C6 theorem at `PT1H2M3S`. -/
theorem C6_witness :
    ("1".data.all isDigitC = true ∧ "1".data ≠ [] ∧ isSubstr "PT".data "abc".data = false) ∧
    parseISO8601Duration ("PT".data ++ "1".data ++ 'H' :: "2".data ++ 'M' :: "3".data ++ ['S']) = 3723 ∧
    parseISO8601Duration "abc".data = 210 := by
  refine ⟨⟨by decide, by decide, by decide⟩, ?_, ?_⟩
  · have h := C6_duration_parsing.1 "1".data "2".data "3".data
      (by decide) (by decide) (by decide) (by decide) (by decide) (by decide)
    rw [h]; decide
  · exact C6_duration_parsing.2.1 "abc".data (by decide)

/-!
### Claim C7: duration-estimator title-pattern tiers
-/

/-- Claim C7 counterexample: `"Introduction"` contains the trigger substring
`"intro"`, but the estimator returns duration 0 with confidence 0 rather than
the claimed 90s/0.85, because the code excludes titles containing
`"introduction"`. -/
theorem C7_counterexample :
    isSubstr "intro".data (lowerS "Introduction".data) = true ∧
    estimateFromTitlePatterns "Introduction".data = ⟨0, "title-pattern".data, 0⟩ := by
  decide

/-- Claim C7 (amended): the estimator's fixed table with first-matching-tier
precedence, where the `"intro"` tier excludes titles containing
`"introduction"` and the generic `"remix"` tier excludes titles containing
`"radio"` (in addition to the claim's `"live"`/`"olive"` exclusion):
intro 90s/0.85, outro-or-interlude 120s/0.85, extended 390s/0.8,
radio edit 195s/0.9, club mix/club remix 345s/0.85, remix 270s/0.75,
live 285s/0.7, acoustic 200s/0.75, demo 180s/0.7, instrumental 210s/0.75,
otherwise duration 0 with confidence 0. -/
theorem C7_title_pattern_tiers :
    (∀ t : Str, tpIntro (lowerS t) = true →
      estimateFromTitlePatterns t = ⟨90, "title-pattern".data, 85⟩) ∧
    (∀ t : Str, tpIntro (lowerS t) = false → tpOutro (lowerS t) = true →
      estimateFromTitlePatterns t = ⟨120, "title-pattern".data, 85⟩) ∧
    (∀ t : Str, tpIntro (lowerS t) = false → tpOutro (lowerS t) = false →
      tpExtended (lowerS t) = true →
      estimateFromTitlePatterns t = ⟨390, "title-pattern".data, 80⟩) ∧
    (∀ t : Str, tpIntro (lowerS t) = false → tpOutro (lowerS t) = false →
      tpExtended (lowerS t) = false → tpRadioEdit (lowerS t) = true →
      estimateFromTitlePatterns t = ⟨195, "title-pattern".data, 90⟩) ∧
    (∀ t : Str, tpIntro (lowerS t) = false → tpOutro (lowerS t) = false →
      tpExtended (lowerS t) = false → tpRadioEdit (lowerS t) = false →
      tpClub (lowerS t) = true →
      estimateFromTitlePatterns t = ⟨345, "title-pattern".data, 85⟩) ∧
    (∀ t : Str, tpIntro (lowerS t) = false → tpOutro (lowerS t) = false →
      tpExtended (lowerS t) = false → tpRadioEdit (lowerS t) = false →
      tpClub (lowerS t) = false → tpRemix (lowerS t) = true →
      estimateFromTitlePatterns t = ⟨270, "title-pattern".data, 75⟩) ∧
    (∀ t : Str, tpIntro (lowerS t) = false → tpOutro (lowerS t) = false →
      tpExtended (lowerS t) = false → tpRadioEdit (lowerS t) = false →
      tpClub (lowerS t) = false → tpRemix (lowerS t) = false →
      tpLive (lowerS t) = true →
      estimateFromTitlePatterns t = ⟨285, "title-pattern".data, 70⟩) ∧
    (∀ t : Str, tpIntro (lowerS t) = false → tpOutro (lowerS t) = false →
      tpExtended (lowerS t) = false → tpRadioEdit (lowerS t) = false →
      tpClub (lowerS t) = false → tpRemix (lowerS t) = false →
      tpLive (lowerS t) = false → tpAcoustic (lowerS t) = true →
      estimateFromTitlePatterns t = ⟨200, "title-pattern".data, 75⟩) ∧
    (∀ t : Str, tpIntro (lowerS t) = false → tpOutro (lowerS t) = false →
      tpExtended (lowerS t) = false → tpRadioEdit (lowerS t) = false →
      tpClub (lowerS t) = false → tpRemix (lowerS t) = false →
      tpLive (lowerS t) = false → tpAcoustic (lowerS t) = false →
      tpDemo (lowerS t) = true →
      estimateFromTitlePatterns t = ⟨180, "title-pattern".data, 70⟩) ∧
    (∀ t : Str, tpIntro (lowerS t) = false → tpOutro (lowerS t) = false →
      tpExtended (lowerS t) = false → tpRadioEdit (lowerS t) = false →
      tpClub (lowerS t) = false → tpRemix (lowerS t) = false →
      tpLive (lowerS t) = false → tpAcoustic (lowerS t) = false →
      tpDemo (lowerS t) = false → tpInstrumental (lowerS t) = true →
      estimateFromTitlePatterns t = ⟨210, "title-pattern".data, 75⟩) ∧
    (∀ t : Str, tpIntro (lowerS t) = false → tpOutro (lowerS t) = false →
      tpExtended (lowerS t) = false → tpRadioEdit (lowerS t) = false →
      tpClub (lowerS t) = false → tpRemix (lowerS t) = false →
      tpLive (lowerS t) = false → tpAcoustic (lowerS t) = false →
      tpDemo (lowerS t) = false → tpInstrumental (lowerS t) = false →
      estimateFromTitlePatterns t = ⟨0, "title-pattern".data, 0⟩) := by
  repeat' constructor
  all_goals
    intro t
    intros
    simp only [tpIntro, tpOutro, tpExtended, tpRadioEdit, tpClub, tpRemix, tpLive,
      tpAcoustic, tpDemo, tpInstrumental] at *
    simp [estimateFromTitlePatterns, *]

/-- Witness for the C7 theorem at `"Intro"`. -/
theorem C7_witness :
    tpIntro (lowerS "Intro".data) = true ∧
    estimateFromTitlePatterns "Intro".data = ⟨90, "title-pattern".data, 85⟩ :=
  ⟨by decide, C7_title_pattern_tiers.1 "Intro".data (by decide)⟩

/-!
### Claim C10: the set of parser confidence values
-/

theorem fbDash_none_revDash {ct : Str} (h : fbDash ct = none) : fbRevDash ct = none := by
  unfold fbDash splitGuard at h
  unfold fbRevDash
  cases hs : splitOnSepChar dashChars ct with
  | none => rfl
  | some p =>
    obtain ⟨x, y⟩ := p
    rw [hs] at h
    simp only [Option.map_eq_none'] at h
    by_cases hcond : (!(trimS x).isEmpty && !(trimS y).isEmpty) = true
    · rw [if_pos hcond] at h
      exact absurd h (by simp)
    · have : (!(trimS y).isEmpty && !(trimS x).isEmpty) = false := by
        rw [Bool.and_comm]
        exact Bool.eq_false_iff.mpr hcond
      simp [this]

theorem fallbackSongInfo_conf (ct : Str) :
    ((fallbackSongInfo ct).confidence = 70 ∨ (fallbackSongInfo ct).confidence = 60 ∨
      (fallbackSongInfo ct).confidence = 50 ∨ (fallbackSongInfo ct).confidence = 20) ∧
    (fallbackSongInfo ct).confidence ≠ 40 := by
  unfold fallbackSongInfo
  cases h1 : fbDash ct with
  | some r =>
    obtain ⟨p, _, rfl⟩ := Option.map_eq_some'.mp h1
    simp
  | none =>
    cases h2 : fbMiddot ct with
    | some r =>
      obtain ⟨p, _, rfl⟩ := Option.map_eq_some'.mp h2
      simp
    | none =>
      cases h3 : fbBy ct with
      | some r =>
        obtain ⟨p, _, rfl⟩ := Option.map_eq_some'.mp h3
        simp
      | none =>
        cases h4 : fbColon ct with
        | some r =>
          obtain ⟨p, _, rfl⟩ := Option.map_eq_some'.mp h4
          simp
        | none =>
          rw [fbDash_none_revDash h1]
          simp

/-- Claim C10: every emitted confidence is one of 0.95, 0.7, 0.6, 0.5, 0.2
(in hundredths), and the reversed-dash tier's 0.4 never occurs: its regex and
guard coincide with those of the higher-priority dash pattern, so reaching it
requires the dash pattern to have already failed. -/
theorem C10_confidence_values :
    ∀ (e : GTEntry) (r : SongInfo), extractSongInfo e = some r →
      (r.confidence = 95 ∨ r.confidence = 70 ∨ r.confidence = 60 ∨
        r.confidence = 50 ∨ r.confidence = 20) ∧ r.confidence ≠ 40 := by
  intro e r h
  unfold extractSongInfo at h
  by_cases ht : e.title.isEmpty
  · simp [ht] at h
  · simp only [ht, if_false, Bool.false_eq_true] at h
    cases hsub : subtitleArtistRaw e with
    | some a =>
      rw [hsub] at h
      by_cases ha : a.isEmpty
      · simp only [ha, Bool.not_true, Bool.false_eq_true, if_false,
          Option.some_inj] at h
        rw [← h]
        exact ⟨Or.inr (fallbackSongInfo_conf _).1, (fallbackSongInfo_conf _).2⟩
      · simp only [ha, Bool.not_false, if_true, Option.some_inj] at h
        rw [← h]
        simp
    | none =>
      rw [hsub] at h
      simp only [Option.some_inj] at h
      rw [← h]
      exact ⟨Or.inr (fallbackSongInfo_conf _).1, (fallbackSongInfo_conf _).2⟩

/-- Witness for the C10 theorem at a concrete qualifying entry. -/
theorem C10_witness :
    ((SongInfo.mk "Song".data "Artist".data 60).confidence = 95 ∨
      (SongInfo.mk "Song".data "Artist".data 60).confidence = 70 ∨
      (SongInfo.mk "Song".data "Artist".data 60).confidence = 60 ∨
      (SongInfo.mk "Song".data "Artist".data 60).confidence = 50 ∨
      (SongInfo.mk "Song".data "Artist".data 60).confidence = 20) ∧
    (SongInfo.mk "Song".data "Artist".data 60).confidence ≠ 40 :=
  C10_confidence_values
    { header := "YouTube Music".data, title := "Song by Artist".data,
      titleUrl := none, subtitles := [], time := "t".data }
    ⟨"Song".data, "Artist".data, 60⟩ (by decide)

/-!
### Claim C8: chunk-size independence of the aggregation
-/

/-- The chunked grouping loop computes the plain left fold of the per-entry
step, for every batch size. -/
theorem processChunks_eq (md : List (Str × SongMeta)) (cy : Int) (b : Nat) :
    ∀ (l : List PlayEntry) (st : AggState),
      processChunks md cy b st l = l.foldl (statsStep md cy) st := by
  suffices H : ∀ (n : Nat) (l : List PlayEntry) (st : AggState), l.length ≤ n →
      processChunks md cy b st l = l.foldl (statsStep md cy) st by
    intro l st
    exact H l.length l st le_rfl
  intro n
  induction n with
  | zero =>
    intro l st h
    cases l with
    | nil => simp [processChunks]
    | cons e rest => simp at h
  | succ n ih =>
    intro l st h
    cases l with
    | nil => simp [processChunks]
    | cons e rest =>
      rw [processChunks]
      rw [ih (rest.drop (b - 1)) _
        (by simp only [List.length_drop]; simp only [List.length_cons] at h; omega)]
      rw [← List.foldl_append, List.cons_append, List.take_append_drop]

/-- Claim C8: the Statistics record produced by `calculateStats` does not
depend on the device-capability batch size (500 vs 2000); chunking only
affects progress reporting and yielding, which have no bearing on the
accumulated state. -/
theorem C8_chunk_size_independence :
    ∀ (c1 c2 : Capability) (md : List (Str × SongMeta)) (cy monthStart : Int)
      (entries : List PlayEntry),
      calculateStats c1 md cy monthStart entries =
        calculateStats c2 md cy monthStart entries := by
  intro c1 c2 md cy ms entries
  unfold calculateStats
  rw [processChunks_eq, processChunks_eq]

/-!
### Claim C1: session segmentation
-/

theorem sessionTotal_append (md : List (Str × SongMeta)) (g : List PlayEntry)
    (e : PlayEntry) :
    sessionTotal md (g ++ [e]) = sessionTotal md g + getDuration md e := by
  simp [sessionTotal, List.map_append, List.sum_append]

theorem sessionGo_eq (md : List (Str × SongMeta)) :
    ∀ (rest : List PlayEntry) (L C : Nat) (prev : Int),
      sessionGo md L C prev rest = (sessSums md C prev rest).foldl Nat.max L := by
  intro rest
  induction rest with
  | nil => intro L C prev; simp [sessionGo, sessSums]
  | cons e rest ih =>
    intro L C prev
    by_cases h : e.playedAt - prev ≤ 3600000
    · simp [sessionGo, sessSums, h, ih]
    · simp [sessionGo, sessSums, h, ih]

theorem splitSessionsGo_sums (md : List (Str × SongMeta)) :
    ∀ (rest cur : List PlayEntry) (prev : Int),
      (splitSessionsGo cur prev rest).map (sessionTotal md) =
        sessSums md (sessionTotal md cur) prev rest := by
  intro rest
  induction rest with
  | nil => intro cur prev; simp [splitSessionsGo, sessSums]
  | cons e rest ih =>
    intro cur prev
    by_cases h : e.playedAt - prev ≤ 3600000
    · simp only [splitSessionsGo, sessSums, h, if_true, ih, sessionTotal_append]
    · simp only [splitSessionsGo, sessSums, h, if_false, List.map_cons, ih]
      have : sessionTotal md [e] = getDuration md e := by simp [sessionTotal]
      simp [this]

/-- The session fold of the aggregator equals the maximum of the per-session
duration totals over the gap-based segmentation. -/
theorem longestSession_eq_sessions (md : List (Str × SongMeta)) (l : List PlayEntry) :
    longestSessionOf md l = ((splitSessions l).map (sessionTotal md)).foldl Nat.max 0 := by
  cases l with
  | nil => rfl
  | cons e rest =>
    rw [longestSessionOf, splitSessions, splitSessionsGo_sums, sessionGo_eq]
    have : sessionTotal md [e] = getDuration md e := by simp [sessionTotal]
    rw [this]

/-- Claim C1: session segmentation.  In general the loop's `longestSession`
is the maximum session total over the gap-based segmentation (sessions extend
while the gap from the previous event's timestamp is ≤ 3600 s; a larger gap
closes the session; the final open session is flushed).  In particular, for
events at t = 0, +30 min and +125 min the first two form one session, the
third starts a new one, and `longestSession` is the larger of the two session
totals. -/
theorem C1_session_segmentation :
    (∀ (md : List (Str × SongMeta)) (l : List PlayEntry),
      longestSessionOf md l = ((splitSessions l).map (sessionTotal md)).foldl Nat.max 0) ∧
    (let e1 : PlayEntry := ⟨"Alpha".data, "X".data, "Alpha".data, none, 0⟩
     let e2 : PlayEntry := ⟨"Beta Remix".data, "X".data, "Beta Remix".data, none, 1800000⟩
     let e3 : PlayEntry := ⟨"Gamma Live".data, "X".data, "Gamma Live".data, none, 7500000⟩
     e2.playedAt - e1.playedAt ≤ 3600000 ∧ ¬(e3.playedAt - e2.playedAt ≤ 3600000) ∧
     splitSessions [e1, e2, e3] = [[e1, e2], [e3]] ∧
     (calculateStats Capability.high [] 2026 0 [e1, e2, e3]).longestSession =
       max (getDuration [] e1 + getDuration [] e2) (getDuration [] e3) ∧
     (calculateStats Capability.low [] 2026 0 [e1, e2, e3]).longestSession = 450) := by
  refine ⟨longestSession_eq_sessions, by decide, by decide, by decide, ?_, ?_⟩
  · simp only [calculateStats, processChunks_eq]
    decide
  · simp only [calculateStats, processChunks_eq]
    decide

/-!
### Claim C4: decade-distribution percentage sum
-/

theorem decadePct_bounds (c T : Nat) (hT : 0 < T) :
    2 * T * decadePct c T ≤ 200 * c + T ∧
    200 * c + T ≤ 2 * T * decadePct c T + (2 * T - 1) := by
  unfold decadePct
  constructor
  · have h := Nat.div_mul_le_self (200 * c + T) (2 * T)
    calc 2 * T * ((200 * c + T) / (2 * T)) = (200 * c + T) / (2 * T) * (2 * T) := by ring
      _ ≤ 200 * c + T := h
  · have h := Nat.div_add_mod (200 * c + T) (2 * T)
    have hm : (200 * c + T) % (2 * T) < 2 * T := Nat.mod_lt _ (by omega)
    set q := (200 * c + T) / (2 * T) with hq
    set r := (200 * c + T) % (2 * T) with hr
    set P := 2 * T * q with hP
    omega

theorem decadePct_sum_bounds (T : Nat) (hT : 0 < T) :
    ∀ counts : List Nat,
      2 * T * ((counts.map (fun c => decadePct c T)).sum) ≤
        200 * counts.sum + counts.length * T ∧
      200 * counts.sum + counts.length * T ≤
        2 * T * ((counts.map (fun c => decadePct c T)).sum) +
          counts.length * (2 * T - 1) := by
  intro counts
  induction counts with
  | nil => simp
  | cons c cs ih =>
    have hc := decadePct_bounds c T hT
    simp only [List.map_cons, List.sum_cons, List.length_cons]
    set k := 2 * T - 1 with hk
    constructor
    · calc 2 * T * (decadePct c T + (cs.map (fun c => decadePct c T)).sum)
          = 2 * T * decadePct c T + 2 * T * (cs.map (fun c => decadePct c T)).sum := by ring
        _ ≤ (200 * c + T) + (200 * cs.sum + cs.length * T) :=
          Nat.add_le_add hc.1 ih.1
        _ = 200 * (c + cs.sum) + (cs.length + 1) * T := by ring
    · calc 200 * (c + cs.sum) + (cs.length + 1) * T
          = (200 * c + T) + (200 * cs.sum + cs.length * T) := by ring
        _ ≤ (2 * T * decadePct c T + k) +
              (2 * T * (cs.map (fun c => decadePct c T)).sum + cs.length * k) :=
          Nat.add_le_add hc.2 ih.2
        _ = 2 * T * (decadePct c T + (cs.map (fun c => decadePct c T)).sum) +
              (cs.length + 1) * k := by ring

/-- Doubled percentage sum of a decade-count list lies within the count of
decades of 200. -/
theorem decadePct_sum_range (counts : List Nat) (hT : 0 < counts.sum) :
    200 - counts.length ≤ 2 * ((counts.map (fun c => decadePct c counts.sum)).sum) ∧
    2 * ((counts.map (fun c => decadePct c counts.sum)).sum) ≤ 200 + counts.length := by
  obtain ⟨h1, h2⟩ := decadePct_sum_bounds counts.sum hT counts
  set T := counts.sum with hTdef
  set S := (counts.map (fun c => decadePct c T)).sum with hS
  set D := counts.length with hD
  have hQ : D * (2 * T - 1) ≤ D * T + D * T := by
    calc D * (2 * T - 1) ≤ D * (2 * T) := Nat.mul_le_mul_left _ (Nat.sub_le _ _)
      _ = D * T + D * T := by ring
  set P := 2 * T * S with hP
  set Q := D * T with hQdef
  constructor
  · have step : 200 * T ≤ P + Q := by omega
    have hmul : T * 200 ≤ T * (2 * S + D) := by
      calc T * 200 = 200 * T := by ring
        _ ≤ P + Q := step
        _ = T * (2 * S + D) := by rw [hP, hQdef]; ring
    have := Nat.le_of_mul_le_mul_left hmul hT
    omega
  · have hmul : T * (2 * S) ≤ T * (200 + D) := by
      calc T * (2 * S) = P := by rw [hP]; ring
        _ ≤ 200 * T + Q := h1
        _ = T * (200 + D) := by rw [hQdef]; ring
    have := Nat.le_of_mul_le_mul_left hmul hT
    omega

theorem insertDescBy_map_sum {α : Type} (key : α → Nat) (f : α → Nat) (x : α) :
    ∀ l : List α, ((insertDescBy key x l).map f).sum = f x + (l.map f).sum := by
  intro l
  induction l with
  | nil => simp [insertDescBy]
  | cons y ys ih =>
    by_cases h : key y < key x
    · simp [insertDescBy, h]
    · simp [insertDescBy, h, ih]
      omega

theorem insertDescBy_length {α : Type} (key : α → Nat) (x : α) :
    ∀ l : List α, (insertDescBy key x l).length = l.length + 1 := by
  intro l
  induction l with
  | nil => simp [insertDescBy]
  | cons y ys ih =>
    by_cases h : key y < key x
    · simp [insertDescBy, h]
    · simp [insertDescBy, h, ih]

theorem sortDescBy_map_sum_go {α : Type} (key : α → Nat) (f : α → Nat) :
    ∀ (l acc : List α),
      ((l.foldl (fun acc x => insertDescBy key x acc) acc).map f).sum =
        (l.map f).sum + (acc.map f).sum := by
  intro l
  induction l with
  | nil => intro acc; simp
  | cons x xs ih =>
    intro acc
    simp only [List.foldl_cons, List.map_cons, List.sum_cons]
    rw [ih, insertDescBy_map_sum]
    omega

theorem sortDescBy_map_sum {α : Type} (key : α → Nat) (f : α → Nat) (l : List α) :
    ((sortDescBy key l).map f).sum = (l.map f).sum := by
  unfold sortDescBy
  rw [sortDescBy_map_sum_go]
  simp

theorem sortDescBy_length_go {α : Type} (key : α → Nat) :
    ∀ (l acc : List α),
      (l.foldl (fun acc x => insertDescBy key x acc) acc).length =
        l.length + acc.length := by
  intro l
  induction l with
  | nil => intro acc; simp
  | cons x xs ih =>
    intro acc
    simp only [List.foldl_cons, List.length_cons]
    rw [ih, insertDescBy_length]
    omega

theorem sortDescBy_length {α : Type} (key : α → Nat) (l : List α) :
    (sortDescBy key l).length = l.length := by
  unfold sortDescBy
  rw [sortDescBy_length_go]
  simp

/-- Claim C4 counterexample: six events with release years in six distinct
decades, one play each.  Every decade gets `Math.round(100/6) = 17` percent,
so the percentages sum to 102, outside the claimed ±1 tolerance of 100. -/
theorem C4_counterexample :
    ((calculateStats Capability.low [] 2026 0
      [⟨"T1955".data, "A1955".data, "T1955 (1955)".data, none, 0⟩,
       ⟨"T1965".data, "A1965".data, "T1965 (1965)".data, none, 1⟩,
       ⟨"T1975".data, "A1975".data, "T1975 (1975)".data, none, 2⟩,
       ⟨"T1985".data, "A1985".data, "T1985 (1985)".data, none, 3⟩,
       ⟨"T1995".data, "A1995".data, "T1995 (1995)".data, none, 4⟩,
       ⟨"T2005".data, "A2005".data, "T2005 (2005)".data, none, 5⟩]).decadeDistribution).map
      (fun l => (l.map DecadeEntry.percentage).sum) = some 102 ∧
    ¬((100 : Nat) - 1 ≤ 102 ∧ 102 ≤ 100 + 1) := by
  constructor
  · simp only [calculateStats, processChunks_eq]
    decide
  · decide

/-- Claim C4 (amended): whenever the aggregator emits a decade distribution
(at least one event had a resolvable release year), the percentage sum `S`
satisfies `200 - D ≤ 2*S ≤ 200 + D` where `D` is the number of decades in
the distribution — i.e. the sum is within ±D/2 of 100 (±4 for the at most 8
decades the 1950–currentYear+1 validation admits), not within ±1. -/
theorem C4_decade_percentage_bound :
    ∀ (cap : Capability) (md : List (Str × SongMeta)) (cy monthStart : Int)
      (entries : List PlayEntry) (dist : List DecadeEntry),
      (calculateStats cap md cy monthStart entries).decadeDistribution = some dist →
      200 - dist.length ≤ 2 * (dist.map DecadeEntry.percentage).sum ∧
      2 * (dist.map DecadeEntry.percentage).sum ≤ 200 + dist.length := by
  intro cap md cy ms entries dist h
  simp only [calculateStats, buildStats] at h
  set st := processChunks md cy (batchSizeOf cap) initAggState entries with hst
  by_cases hy : (st.songYearMap.map Prod.snd).isEmpty
  · simp [hy] at h
  · simp only [hy, Bool.not_false, if_true, Bool.false_eq_true, if_false] at h
    by_cases htot : 0 < (st.decadeCountMap.map Prod.snd).sum
    · rw [if_pos htot] at h
      simp only [Option.some_inj] at h
      subst h
      rw [sortDescBy_map_sum, sortDescBy_length]
      simp only [List.map_map]
      have hmap :
          (st.decadeCountMap.map
            ((fun (d : DecadeEntry) => d.percentage) ∘
              (fun p => ⟨p.1, p.2, decadePct p.2 ((st.decadeCountMap.map Prod.snd).sum)⟩))) =
          (st.decadeCountMap.map Prod.snd).map
            (fun c => decadePct c ((st.decadeCountMap.map Prod.snd).sum)) := by
        simp [List.map_map]
      rw [hmap, List.length_map]
      have hlen : st.decadeCountMap.length = (st.decadeCountMap.map Prod.snd).length := by
        simp
      rw [hlen]
      exact decadePct_sum_range _ htot
    · rw [if_neg htot] at h
      simp at h

/-!
### Claim C9: the 8000-id cap of the metadata resolver
-/

theorem mapSet_mem {α : Type} (k : Str) (v : α) :
    ∀ (m : List (Str × α)) (p : Str × α), p ∈ mapSet k v m → p.1 = k ∨ p ∈ m := by
  intro m
  induction m with
  | nil =>
    intro p hp
    simp only [mapSet, List.mem_singleton] at hp
    subst hp
    exact Or.inl rfl
  | cons q rest ih =>
    intro p hp
    obtain ⟨k2, v2⟩ := q
    simp only [mapSet] at hp
    by_cases h : (k2 == k) = true
    · rw [if_pos h] at hp
      rcases List.mem_cons.mp hp with h2 | h2
      · subst h2
        exact Or.inl (eq_of_beq h)
      · exact Or.inr (List.mem_cons_of_mem _ h2)
    · rw [if_neg h] at hp
      rcases List.mem_cons.mp hp with h2 | h2
      · exact Or.inr (h2 ▸ List.mem_cons_self _ _)
      · rcases ih p h2 with h3 | h3
        · exact Or.inl h3
        · exact Or.inr (List.mem_cons_of_mem _ h3)

theorem foldl_mapSet_subset {β α : Type} (step : List (Str × α) → β → List (Str × α))
    (key : β → Str)
    (hstep : ∀ m b p, p ∈ step m b → p.1 = key b ∨ p ∈ m) :
    ∀ (l : List β) (m0 : List (Str × α)) (p : Str × α), p ∈ l.foldl step m0 →
      (∃ b ∈ l, p.1 = key b) ∨ p ∈ m0 := by
  intro l
  induction l with
  | nil =>
    intro m0 p hp
    exact Or.inr (by simpa using hp)
  | cons b bs ih =>
    intro m0 p hp
    simp only [List.foldl_cons] at hp
    rcases ih (step m0 b) p hp with h | h
    · obtain ⟨b2, hb2, hpk⟩ := h
      exact Or.inl ⟨b2, List.mem_cons_of_mem _ hb2, hpk⟩
    · rcases hstep m0 b p h with h2 | h2
      · exact Or.inl ⟨b, List.mem_cons_self _ _, h2⟩
      · exact Or.inr h2

theorem dedupGo_subset : ∀ (l seen : List Str) (x : Str), x ∈ dedupGo seen l → x ∈ l := by
  intro l
  induction l with
  | nil =>
    intro seen x hx
    simp [dedupGo] at hx
  | cons y ys ih =>
    intro seen x hx
    simp only [dedupGo] at hx
    by_cases h : seen.contains y
    · rw [if_pos h] at hx
      exact List.mem_cons_of_mem _ (ih _ _ hx)
    · rw [if_neg h] at hx
      rcases List.mem_cons.mp hx with h2 | h2
      · exact h2 ▸ List.mem_cons_self _ _
      · exact List.mem_cons_of_mem _ (ih _ _ h2)

theorem fetchStep_mem (provider : Str → Option RawVideoItem)
    (chImg : Str → Option Str) (m : List (Str × ClientSong)) (b : Str)
    (p : Str × ClientSong) : p ∈ fetchStep provider chImg m b → p.1 = b ∨ p ∈ m := by
  unfold fetchStep
  cases provider b with
  | some it => exact fun h => mapSet_mem _ _ _ _ h
  | none => exact fun h => Or.inr h

theorem dedupKeepFirst_subset (l : List Str) (x : Str) :
    x ∈ dedupKeepFirst l → x ∈ l :=
  fun h => dedupGo_subset l [] x h

/-- Claim C9: `lookupSongs` processes at most the first 8000 video ids —
`stats.requested = min(input length, 8000)` and every key of the returned
mapping is among the first 8000 requested ids, so dropped ids are never
reflected. -/
theorem C9_lookup_id_cap :
    ∀ (cache : List CacheSong) (hasApiKey : Bool)
      (provider : Str → Option RawVideoItem) (chImg : Str → Option Str)
      (videoIds : List Str), videoIds ≠ [] →
      ((lookupSongs cache hasApiKey provider chImg videoIds).stats.map
        LookupStats.requested = some (min videoIds.length MAX_VIDEO_IDS)) ∧
      (∀ (ds : List (Str × ClientSong)) (p : Str × ClientSong),
        (lookupSongs cache hasApiKey provider chImg videoIds).data = some ds →
        p ∈ ds → p.1 ∈ videoIds.take MAX_VIDEO_IDS) := by
  intro cache hasApiKey provider chImg videoIds hne
  have hne2 : videoIds.isEmpty = false := by
    cases videoIds with
    | nil => exact absurd rfl hne
    | cons a as => rfl
  unfold lookupSongs
  simp only [hne2, Bool.false_eq_true, if_false]
  constructor
  · simp [List.length_take, Nat.min_comm]
  · intro ds p hds hp
    simp only [Option.some_inj] at hds
    subst hds
    set limited := videoIds.take MAX_VIDEO_IDS with hlim
    set cmap := (cache.filter (fun s => limited.contains s.youtubeId)).foldl
        (fun m s => mapSet s.youtubeId (processCached s) m) [] with hcm
    set toFetch := dedupKeepFirst
        (limited.filter (fun id => (mapGet cmap id).isNone) ++
          limited.filter (fun id =>
            match mapGet cmap id with
            | some c => c.thumbnail.isNone
            | none => false)) with htf
    have hall := foldl_mapSet_subset (fun m (q : Str × ClientSong) => mapSet q.1 q.2 m)
      Prod.fst (fun m b p2 h => mapSet_mem _ _ _ _ h) _ _ p hp
    rcases hall with ⟨b, hb, hpk⟩ | hcached
    · -- key comes from the freshly fetched map
      by_cases hc : (!toFetch.isEmpty && hasApiKey) = true
      · rw [if_pos hc] at hb
        have hb2 := foldl_mapSet_subset (fetchStep provider chImg) (fun id => id)
          (fun m b2 p2 h => fetchStep_mem provider chImg m b2 p2 h) _ _ b hb
        rcases hb2 with ⟨id2, hid2, hbk⟩ | hfalse
        · have hid3 := dedupKeepFirst_subset _ _ hid2
          rw [hpk, hbk]
          rcases List.mem_append.mp hid3 with hmem | hmem
          · exact (List.mem_filter.mp hmem).1
          · exact (List.mem_filter.mp hmem).1
        · simp at hfalse
      · rw [if_neg hc] at hb
        simp at hb
    · -- key comes from the cache map
      have hc := foldl_mapSet_subset
        (fun m (s : CacheSong) => mapSet s.youtubeId (processCached s) m)
        CacheSong.youtubeId
        (fun m b2 p2 h => mapSet_mem _ _ _ _ h) _ _ p hcached
      rcases hc with ⟨s2, hs, hpk⟩ | hfalse
      · have hs2 := (List.mem_filter.mp hs).2
        rw [hpk]
        exact List.mem_of_elem_eq_true hs2
      · simp at hfalse

/-- Witness for the C9 theorem at a one-element id list. -/
theorem C9_witness :
    (["id1".data] ≠ ([] : List Str)) ∧
    (lookupSongs [] false (fun _ => none) (fun _ => none) ["id1".data]).stats.map
      LookupStats.requested = some 1 := by
  refine ⟨by simp, ?_⟩
  have h := (C9_lookup_id_cap [] false (fun _ => none) (fun _ => none)
    ["id1".data] (by simp)).1
  simpa using h

/-- Witness for the C4 bound at a single year-tagged event (one decade,
percentage 100). -/
theorem C4_witness :
    (200 : Nat) - 1 ≤ 2 * 100 ∧ 2 * 100 ≤ 200 + 1 := by
  have h := C4_decade_percentage_bound Capability.low [] 2026 0
    [⟨"T".data, "A".data, "T (1955)".data, none, 0⟩]
    [⟨"1950s".data, 1, 100⟩]
    (by simp only [calculateStats, processChunks_eq]; decide)
  exact h

/-!
### Claim C2: extraction precedence of the Takeout parser
-/

theorem qualifies_title_nonempty (e : GTEntry) :
    isYouTubeMusicEntry e = true → e.title.isEmpty = false := by
  intro h
  simp only [isYouTubeMusicEntry, Bool.and_eq_true, Bool.not_eq_true'] at h
  exact h.1.1.1.1.1

/-- When the subtitle artist is missing or cleans to the empty string, the
parser takes the fallback cascade. -/
theorem extract_of_subtitle_empty (e : GTEntry)
    (ht : e.title.isEmpty = false)
    (hsub : subtitleArtistRaw e = none ∨ subtitleArtistRaw e = some []) :
    extractSongInfo e = some (fallbackSongInfo (cleanTitle e.title)) := by
  unfold extractSongInfo
  rw [ht]
  rcases hsub with h | h
  · rw [h]; rfl
  · rw [h]; rfl

/-- Claim C2 counterexample: a qualifying record whose first subtitle name is
the non-empty string `"- Topic"`.  Artist cleanup empties it, so instead of
the claimed authoritative-artist path with confidence 0.95 the parser falls
through to the heuristics and emits `"Unknown Artist"` with confidence 0.2. -/
theorem C2_counterexample :
    isYouTubeMusicEntry
      { header := "YouTube Music".data, title := "abc".data, titleUrl := none,
        subtitles := [⟨"- Topic".data⟩], time := "t".data } = true ∧
    "- Topic".data ≠ ([] : Str) ∧
    cleanArtistNamePS "- Topic".data = [] ∧
    extractSongInfo
      { header := "YouTube Music".data, title := "abc".data, titleUrl := none,
        subtitles := [⟨"- Topic".data⟩], time := "t".data } =
      some ⟨"abc".data, "Unknown Artist".data, 20⟩ := by
  refine ⟨by decide, by decide, by decide, by decide⟩

/-- Claim C2 (amended): for every qualifying record, if the first subtitle
entry has a name that is non-empty after artist cleanup, the parser uses the
cleaned name as the authoritative artist with confidence 0.95; otherwise
(including when cleanup empties a non-empty name) it tries the regex
heuristics on the cleaned title in the order `A - B`, `A · B`, `A by B`,
`A: B` with confidences 0.7, 0.7, 0.6, 0.5 (the reversed-dash 0.4 tier can
never fire, see C10), the first matching pattern winning; otherwise the event
is emitted with artist `"Unknown Artist"` and confidence 0.2. -/
theorem C2_extraction_precedence :
    (∀ (e : GTEntry) (a : Str), isYouTubeMusicEntry e = true →
      subtitleArtistRaw e = some a → a ≠ [] →
      extractSongInfo e = some ⟨subtitleSongTitle a (cleanTitle e.title), a, 95⟩) ∧
    (∀ (e : GTEntry) (a t : Str), isYouTubeMusicEntry e = true →
      (subtitleArtistRaw e = none ∨ subtitleArtistRaw e = some []) →
      splitGuard dashChars (cleanTitle e.title) = some (a, t) →
      extractSongInfo e = some ⟨cleanSongTitle t, cleanArtistNamePS a, 70⟩) ∧
    (∀ (e : GTEntry) (a t : Str), isYouTubeMusicEntry e = true →
      (subtitleArtistRaw e = none ∨ subtitleArtistRaw e = some []) →
      splitGuard dashChars (cleanTitle e.title) = none →
      splitGuard middotChars (cleanTitle e.title) = some (a, t) →
      extractSongInfo e = some ⟨cleanSongTitle t, cleanArtistNamePS a, 70⟩) ∧
    (∀ (e : GTEntry) (a t : Str), isYouTubeMusicEntry e = true →
      (subtitleArtistRaw e = none ∨ subtitleArtistRaw e = some []) →
      splitGuard dashChars (cleanTitle e.title) = none →
      splitGuard middotChars (cleanTitle e.title) = none →
      byGuard (cleanTitle e.title) = some (t, a) →
      extractSongInfo e = some ⟨cleanSongTitle t, cleanArtistNamePS a, 60⟩) ∧
    (∀ (e : GTEntry) (a t : Str), isYouTubeMusicEntry e = true →
      (subtitleArtistRaw e = none ∨ subtitleArtistRaw e = some []) →
      splitGuard dashChars (cleanTitle e.title) = none →
      splitGuard middotChars (cleanTitle e.title) = none →
      byGuard (cleanTitle e.title) = none →
      splitGuard [':'] (cleanTitle e.title) = some (a, t) →
      extractSongInfo e = some ⟨cleanSongTitle t, cleanArtistNamePS a, 50⟩) ∧
    (∀ (e : GTEntry), isYouTubeMusicEntry e = true →
      (subtitleArtistRaw e = none ∨ subtitleArtistRaw e = some []) →
      splitGuard dashChars (cleanTitle e.title) = none →
      splitGuard middotChars (cleanTitle e.title) = none →
      byGuard (cleanTitle e.title) = none →
      splitGuard [':'] (cleanTitle e.title) = none →
      extractSongInfo e =
        some ⟨cleanSongTitle (cleanTitle e.title), "Unknown Artist".data, 20⟩) := by
  refine ⟨?_, ?_, ?_, ?_, ?_, ?_⟩
  · intro e a hq hsub ha
    have ht := qualifies_title_nonempty e hq
    have ha2 : a.isEmpty = false := by
      cases a with
      | nil => exact absurd rfl ha
      | cons c cs => rfl
    unfold extractSongInfo
    rw [ht, hsub]
    simp [ha2]
  · intro e a t hq hsub hdash
    rw [extract_of_subtitle_empty e (qualifies_title_nonempty e hq) hsub]
    simp [fallbackSongInfo, fbDash, hdash]
  · intro e a t hq hsub hdash hmid
    rw [extract_of_subtitle_empty e (qualifies_title_nonempty e hq) hsub]
    simp [fallbackSongInfo, fbDash, fbMiddot, hdash, hmid]
  · intro e a t hq hsub hdash hmid hby
    rw [extract_of_subtitle_empty e (qualifies_title_nonempty e hq) hsub]
    simp [fallbackSongInfo, fbDash, fbMiddot, fbBy, hdash, hmid, hby]
  · intro e a t hq hsub hdash hmid hby hcolon
    rw [extract_of_subtitle_empty e (qualifies_title_nonempty e hq) hsub]
    simp [fallbackSongInfo, fbDash, fbMiddot, fbBy, fbColon, hdash, hmid, hby, hcolon]
  · intro e hq hsub hdash hmid hby hcolon
    rw [extract_of_subtitle_empty e (qualifies_title_nonempty e hq) hsub]
    have hrev : fbRevDash (cleanTitle e.title) = none :=
      fbDash_none_revDash (by simp [fbDash, hdash])
    simp [fallbackSongInfo, fbDash, fbMiddot, fbBy, fbColon, hdash, hmid, hby, hcolon, hrev]

/-- Witness for the C2 theorem: the subtitle branch and the dash branch at
concrete qualifying entries. -/
theorem C2_witness :
    extractSongInfo
      { header := "YouTube Music".data, title := "Artist - Tune".data, titleUrl := none,
        subtitles := [⟨"Artist - Topic".data⟩], time := "t".data } =
      some ⟨subtitleSongTitle "Artist".data (cleanTitle "Artist - Tune".data),
        "Artist".data, 95⟩ ∧
    extractSongInfo
      { header := "YouTube Music".data, title := "AC - DC".data, titleUrl := none,
        subtitles := [], time := "t".data } =
      some ⟨cleanSongTitle "DC".data, cleanArtistNamePS "AC".data, 70⟩ := by
  constructor
  · exact C2_extraction_precedence.1
      { header := "YouTube Music".data, title := "Artist - Tune".data, titleUrl := none,
        subtitles := [⟨"Artist - Topic".data⟩], time := "t".data }
      "Artist".data (by decide) (by decide) (by decide)
  · exact C2_extraction_precedence.2.1
      { header := "YouTube Music".data, title := "AC - DC".data, titleUrl := none,
        subtitles := [], time := "t".data }
      "AC".data "DC".data (by decide) (Or.inl (by decide)) (by decide)

/-!
### Claim C5: per-record error tally, cap and early abort
-/

theorem refErrorsFrom_length : ∀ (data : List (Option GTEntry)) (i : Nat),
    (refErrorsFrom i data).length = countThrows data := by
  intro data
  induction data with
  | nil => intro i; simp [refErrorsFrom, countThrows]
  | cons x rest ih =>
    intro i
    cases x with
    | none => simp [refErrorsFrom, countThrows, List.filter_cons, ih (i + 1)]
    | some e => simp [refErrorsFrom, countThrows, List.filter_cons, ih (i + 1)]

/-- Full characterization of the parse loop: below the cap it collects one
error message per throwing record and parses everything; once the tally would
exceed the cap it stops at the `(MAX_ERRORS + 1 - errs.length)`-th throwing
record, appending that record's message and the terminal note. -/
theorem parseHistoryGo_spec (pt : Str → Option Int) :
    ∀ (data : List (Option GTEntry)) (i music : Nat) (acc : List ParsedSongPS)
      (errs : List Str),
      (countThrows data + errs.length ≤ MAX_ERRORS →
        parseHistoryGo pt data i music acc errs =
          (music + refMusicCount data, acc ++ refEntries pt data,
            errs ++ refErrorsFrom i data)) ∧
      (MAX_ERRORS < countThrows data + errs.length → errs.length ≤ MAX_ERRORS →
        parseHistoryGo pt data i music acc errs =
          (music + refMusicCount (beforeNthNone (MAX_ERRORS + 1 - errs.length) data),
            acc ++ refEntries pt (beforeNthNone (MAX_ERRORS + 1 - errs.length) data),
            errs ++ refErrorsFrom i (beforeNthNone (MAX_ERRORS + 1 - errs.length) data) ++
              [errEntryMsg
                (i + (beforeNthNone (MAX_ERRORS + 1 - errs.length) data).length),
               tooManyMsg])) := by
  intro data
  induction data with
  | nil =>
    intro i music acc errs
    constructor
    · intro _
      simp [parseHistoryGo, refMusicCount, refEntries, refErrorsFrom]
    · intro h1 h2
      simp [countThrows] at h1
      omega
  | cons x rest ih =>
    intro i music acc errs
    cases x with
    | none =>
      have hct : countThrows (none :: rest) = countThrows rest + 1 := by
        simp [countThrows, List.filter_cons]
      constructor
      · intro h
        rw [hct] at h
        rw [parseHistoryGo, if_neg (by simp; omega)]
        rw [((ih (i + 1) music acc (errs ++ [errEntryMsg i])).1 (by simp; omega))]
        simp [refMusicCount, refEntries, refErrorsFrom, List.filterMap_cons]
      · intro h1 h2
        rw [hct] at h1
        by_cases habort : MAX_ERRORS < errs.length + 1
        · have hL : errs.length = MAX_ERRORS := by omega
          have hn : MAX_ERRORS + 1 - errs.length = 1 := by omega
          rw [parseHistoryGo, if_pos (by simp; omega), hn]
          simp [beforeNthNone, refMusicCount, refEntries, refErrorsFrom,
            List.filterMap_cons, countThrows]
        · rw [parseHistoryGo, if_neg (by simp; omega)]
          rw [((ih (i + 1) music acc (errs ++ [errEntryMsg i])).2
            (by simp; omega) (by simp; omega))]
          have hn : ¬(MAX_ERRORS + 1 - errs.length ≤ 1) := by omega
          have hb : beforeNthNone (MAX_ERRORS + 1 - errs.length) (none :: rest) =
              none :: beforeNthNone (MAX_ERRORS + 1 - errs.length - 1) rest := by
            simp [beforeNthNone, hn]
          have hidx : MAX_ERRORS + 1 - (errs ++ [errEntryMsg i]).length =
              MAX_ERRORS + 1 - errs.length - 1 := by
            simp
            omega
          rw [hidx, hb]
          simp [refMusicCount, refEntries, refErrorsFrom, List.filterMap_cons]
          congr 1
          omega
    | some e =>
      have hct : countThrows (some e :: rest) = countThrows rest := by
        simp [countThrows, List.filter_cons]
      by_cases hytm : isYouTubeMusicEntry e
      · cases hparse : parseSongEntry pt e with
        | some p =>
          constructor
          · intro h
            rw [hct] at h
            rw [parseHistoryGo, if_pos hytm, hparse]
            dsimp only
            rw [((ih (i + 1) (music + 1) (acc ++ [p]) errs).1 (by omega))]
            simp [refMusicCount, refEntries, refErrorsFrom, List.filterMap_cons,
              List.filter_cons, hytm, hparse]
            omega
          · intro h1 h2
            rw [hct] at h1
            rw [parseHistoryGo, if_pos hytm, hparse]
            dsimp only
            rw [((ih (i + 1) (music + 1) (acc ++ [p]) errs).2 (by omega) h2)]
            simp [beforeNthNone, refMusicCount, refEntries, refErrorsFrom,
              List.filterMap_cons, List.filter_cons, hytm, hparse]
            constructor
            · omega
            · congr 1
              omega
        | none =>
          constructor
          · intro h
            rw [hct] at h
            rw [parseHistoryGo, if_pos hytm, hparse]
            dsimp only
            rw [((ih (i + 1) (music + 1) acc errs).1 (by omega))]
            simp [refMusicCount, refEntries, refErrorsFrom, List.filterMap_cons,
              List.filter_cons, hytm, hparse]
            omega
          · intro h1 h2
            rw [hct] at h1
            rw [parseHistoryGo, if_pos hytm, hparse]
            dsimp only
            rw [((ih (i + 1) (music + 1) acc errs).2 (by omega) h2)]
            simp [beforeNthNone, refMusicCount, refEntries, refErrorsFrom,
              List.filterMap_cons, List.filter_cons, hytm, hparse]
            constructor
            · omega
            · congr 1
              omega
      · constructor
        · intro h
          rw [hct] at h
          rw [parseHistoryGo, if_neg hytm]
          rw [((ih (i + 1) music acc errs).1 (by omega))]
          simp [refMusicCount, refEntries, refErrorsFrom, List.filterMap_cons,
            List.filter_cons, hytm]
        · intro h1 h2
          rw [hct] at h1
          rw [parseHistoryGo, if_neg hytm]
          rw [((ih (i + 1) music acc errs).2 (by omega) h2)]
          simp [beforeNthNone, refMusicCount, refEntries, refErrorsFrom,
            List.filterMap_cons, List.filter_cons, hytm]
          congr 1
          omega

/-- Claim C5 counterexample: a qualifying record whose timestamp does not
parse is dropped silently — the error list stays empty, contradicting the
claim that such records are collected into the error tally. -/
theorem C5_counterexample :
    isYouTubeMusicEntry
      { header := "YouTube Music".data, title := "Song".data, titleUrl := none,
        subtitles := [], time := "garbage".data } = true ∧
    parseSongEntry (fun _ => none)
      { header := "YouTube Music".data, title := "Song".data, titleUrl := none,
        subtitles := [], time := "garbage".data } = none ∧
    parseHistoryFile (fun _ => none)
      [some { header := "YouTube Music".data, title := "Song".data, titleUrl := none,
              subtitles := [], time := "garbage".data }] =
      { entries := [], totalEntries := 1, musicEntries := 1, errors := [] } := by
  refine ⟨by decide, by decide, by decide⟩

/-- Claim C5 (amended): per-record errors come only from records whose
processing throws — records dropped for an unparsable timestamp are skipped
silently and never enter the tally.  The tally is capped at 100: with at most
100 throwing records the whole payload is parsed and the error list has one
message per throwing record; with more, parsing aborts at the 101st throwing
record and returns the events accumulated so far plus that record's message
and a terminal note. -/
theorem C5_error_cap :
    (∀ (pt : Str → Option Int) (data : List (Option GTEntry)),
      countThrows data ≤ MAX_ERRORS →
      parseHistoryFile pt data =
        { entries := refEntries pt data, totalEntries := data.length,
          musicEntries := refMusicCount data, errors := refErrorsFrom 0 data }) ∧
    (∀ (pt : Str → Option Int) (data : List (Option GTEntry)),
      MAX_ERRORS < countThrows data →
      parseHistoryFile pt data =
        { entries := refEntries pt (beforeNthNone (MAX_ERRORS + 1) data),
          totalEntries := data.length,
          musicEntries := refMusicCount (beforeNthNone (MAX_ERRORS + 1) data),
          errors := refErrorsFrom 0 (beforeNthNone (MAX_ERRORS + 1) data) ++
            [errEntryMsg (beforeNthNone (MAX_ERRORS + 1) data).length, tooManyMsg] }) ∧
    (∀ (data : List (Option GTEntry)) (i : Nat),
      (refErrorsFrom i data).length = countThrows data) := by
  refine ⟨?_, ?_, fun data i => refErrorsFrom_length data i⟩
  · intro pt data h
    unfold parseHistoryFile
    rw [((parseHistoryGo_spec pt data 0 0 [] []).1 (by simpa using h))]
    simp
  · intro pt data h
    unfold parseHistoryFile
    rw [((parseHistoryGo_spec pt data 0 0 [] []).2 (by simpa using h) (by simp))]
    simp

/-- Witness for the C5 theorem: one throwing record and one good record,
below the cap. -/
theorem C5_witness :
    countThrows [none, some
      { header := "YouTube Music".data, title := "Song by Artist".data,
        titleUrl := none, subtitles := [], time := "5".data }] ≤ MAX_ERRORS ∧
    parseHistoryFile (fun t => if t = "5".data then some 5000 else none)
      [none, some
        { header := "YouTube Music".data, title := "Song by Artist".data,
          titleUrl := none, subtitles := [], time := "5".data }] =
      { entries := [⟨"Song".data, "Artist".data, "Song by Artist".data, none, 5000, 60⟩],
        totalEntries := 2, musicEntries := 1,
        errors := [errEntryMsg 0] } := by
  constructor
  · decide
  · rw [C5_error_cap.1 (fun t => if t = "5".data then some 5000 else none) _ (by decide)]
    decide

/-!
### Claim C3: idempotence of the title cleanup
-/

/-- The tail of a whitespace-normal string is whitespace-normal. -/
theorem spacesSingle_tail {c : Char} {l : Str} (h : spacesSingle (c :: l) = true) :
    spacesSingle l = true := by
  cases l with
  | nil => rfl
  | cons c2 r => simp [spacesSingle] at h; exact h.2

/-- The head of a whitespace-normal string is a non-whitespace character or a
plain space. -/
theorem spacesSingle_head {c : Char} {l : Str} (h : spacesSingle (c :: l) = true) :
    isJsWs c = false ∨ c = ' ' := by
  cases l with
  | nil => simp [spacesSingle] at h; tauto
  | cons c2 r => simp [spacesSingle] at h; tauto

/-- Prepending a non-whitespace character preserves whitespace-normality. -/
theorem spacesSingle_cons_nonws {c : Char} (l : Str) (h : isJsWs c = false) :
    spacesSingle (c :: l) = spacesSingle l := by
  cases l with
  | nil => simp [spacesSingle, h]
  | cons c2 r => simp [spacesSingle, h]

/-- Whitespace-normality of a string starting with a space. -/
theorem spacesSingle_space (l : Str) :
    spacesSingle (' ' :: l) = (headOk l && spacesSingle l) := by
  have hws : isJsWs ' ' = true := by decide
  cases l with
  | nil => simp [spacesSingle, headOk, hws]
  | cons c2 r => simp [spacesSingle, headOk, hws]

/-- The in-run collapse pass never emits a leading whitespace character. -/
theorem headOk_collapseAux_true : ∀ l : Str, headOk (collapseAux true l) = true := by
  intro l
  induction l with
  | nil => rfl
  | cons c rest ih =>
    by_cases hc : isJsWs c = true
    · simpa [collapseAux, hc] using ih
    · simp [collapseAux, hc, headOk]

/-- Collapsing whitespace runs yields a whitespace-normal string. -/
theorem spacesSingle_collapseAux : ∀ (l : Str) (b : Bool),
    spacesSingle (collapseAux b l) = true := by
  intro l
  induction l with
  | nil => intro b; rfl
  | cons c rest ih =>
    intro b
    by_cases hc : isJsWs c = true
    · cases b with
      | true => simpa [collapseAux, hc] using ih true
      | false =>
        simp [collapseAux, hc, spacesSingle_space, headOk_collapseAux_true, ih true]
    · have hcf : isJsWs c = false := by simpa using hc
      simp [collapseAux, hc, spacesSingle_cons_nonws _ hcf, ih false]

/-- On a whitespace-normal string the collapse pass is the identity. -/
theorem collapseAux_of_spacesSingle : ∀ l : Str,
    (spacesSingle l = true → collapseAux false l = l) ∧
    (headOk l = true → spacesSingle l = true → collapseAux true l = l) := by
  intro l
  induction l with
  | nil => exact ⟨fun _ => rfl, fun _ _ => rfl⟩
  | cons c rest ih =>
    constructor
    · intro h
      by_cases hc : isJsWs c = true
      · have hsp : c = ' ' := by
          rcases spacesSingle_head h with h1 | h1
          · rw [h1] at hc; exact absurd hc (by simp)
          · exact h1
        subst hsp
        rw [spacesSingle_space] at h
        simp at h
        simp [collapseAux, hc]
        exact ih.2 h.1 h.2
      · simp [collapseAux, hc]
        exact ih.1 (spacesSingle_tail h)
    · intro hh h
      have hcf : isJsWs c = false := by simpa [headOk] using hh
      simp [collapseAux, hcf]
      exact ih.1 (spacesSingle_tail h)

/-- Dropping the leading whitespace run leaves a non-whitespace head. -/
theorem headOk_dropWs (l : Str) : headOk (dropWs l) = true := by
  induction l with
  | nil => rfl
  | cons c rest ih =>
    by_cases hc : isJsWs c = true
    · simpa [dropWs, List.dropWhile_cons, hc] using ih
    · simp [dropWs, List.dropWhile_cons, hc, headOk]

/-- A string with a non-whitespace head keeps its leading run. -/
theorem dropWs_of_headOk {l : Str} (h : headOk l = true) : dropWs l = l := by
  cases l with
  | nil => rfl
  | cons c rest =>
    simp [headOk] at h
    simp [dropWs, List.dropWhile_cons, h]

/-- Dropping the trailing whitespace run preserves a non-whitespace head. -/
theorem headOk_dropTrailWs {l : Str} (h : headOk l = true) :
    headOk (dropTrailWs l) = true := by
  cases l with
  | nil => rfl
  | cons c rest =>
    simp [headOk] at h
    by_cases hr : (dropTrailWs rest).isEmpty = true
    · simp [dropTrailWs, hr, h, headOk]
    · simp [dropTrailWs, hr, h, headOk]

/-- Dropping the trailing whitespace run is idempotent. -/
theorem dropTrailWs_idem : ∀ l : Str, dropTrailWs (dropTrailWs l) = dropTrailWs l := by
  intro l
  induction l with
  | nil => rfl
  | cons c rest ih =>
    by_cases hr : (dropTrailWs rest).isEmpty = true
    · by_cases hc : isJsWs c = true
      · simp [dropTrailWs, hr, hc]
      · simp [dropTrailWs, hr, hc]
    · simp [dropTrailWs, hr, ih]

/-- Trimming is idempotent. -/
theorem trimS_idem (l : Str) : trimS (trimS l) = trimS l := by
  have h1 : headOk (dropWs l) = true := headOk_dropWs l
  have h2 : headOk (dropTrailWs (dropWs l)) = true := headOk_dropTrailWs h1
  simp only [trimS]
  rw [dropWs_of_headOk h2, dropTrailWs_idem]

/-- Dropping the leading whitespace run preserves whitespace-normality. -/
theorem spacesSingle_dropWs : ∀ l : Str, spacesSingle l = true →
    spacesSingle (dropWs l) = true := by
  intro l
  induction l with
  | nil => intro h; exact h
  | cons c rest ih =>
    intro h
    by_cases hc : isJsWs c = true
    · simp only [dropWs, List.dropWhile_cons, if_pos hc]
      exact ih (spacesSingle_tail h)
    · simpa only [dropWs, List.dropWhile_cons, if_neg hc] using h

/-- Dropping the trailing whitespace run preserves whitespace-normality. -/
theorem spacesSingle_dropTrailWs : ∀ l : Str, spacesSingle l = true →
    spacesSingle (dropTrailWs l) = true := by
  intro l
  induction l with
  | nil => intro h; exact h
  | cons c rest ih =>
    intro h
    by_cases hr : (dropTrailWs rest).isEmpty = true
    · by_cases hc : isJsWs c = true
      · simp [dropTrailWs, hr, hc, spacesSingle]
      · simp [dropTrailWs, hr, hc, spacesSingle]
    · have hsr : spacesSingle (dropTrailWs rest) = true := ih (spacesSingle_tail h)
      have hcons : dropTrailWs (c :: rest) = c :: dropTrailWs rest := by
        simp [dropTrailWs, hr]
      rw [hcons]
      by_cases hc : isJsWs c = true
      · have hsp : c = ' ' := by
          rcases spacesSingle_head h with h1 | h1
          · rw [h1] at hc; exact absurd hc (by simp)
          · exact h1
        subst hsp
        rw [spacesSingle_space] at h ⊢
        simp at h ⊢
        exact ⟨headOk_dropTrailWs h.1, hsr⟩
      · have hcf : isJsWs c = false := by simpa using hc
        rw [spacesSingle_cons_nonws _ hcf]
        exact hsr

/-- Trimming preserves whitespace-normality. -/
theorem spacesSingle_trimS {l : Str} (h : spacesSingle l = true) :
    spacesSingle (trimS l) = true :=
  spacesSingle_dropTrailWs _ (spacesSingle_dropWs _ h)

/-- Every cleaned title is whitespace-normal. -/
theorem spacesSingle_cleanTitle (x : Str) : spacesSingle (cleanTitle x) = true := by
  simp only [cleanTitle]
  exact spacesSingle_trimS (spacesSingle_collapseAux _ false)

/-- Every cleaned title is trimmed. -/
theorem trimS_cleanTitle (x : Str) : trimS (cleanTitle x) = cleanTitle x := by
  simp only [cleanTitle]
  exact trimS_idem _

/-- Cleanup is the identity on a trimmed, whitespace-normal string on which no
strip rule fires. -/
theorem cleanTitle_of_stable {y : Str} (h : cleanStable y) (ht : trimS y = y)
    (hs : spacesSingle y = true) : cleanTitle y = y := by
  obtain ⟨h1, h2, h3, h4, h5, h6, h7, h8, h9⟩ := h
  simp only [cleanTitle, ht, h1, h2, h3, h4, h5, h6, h7, h8, h9]
  rw [show collapseWs y = y from (collapseAux_of_spacesSingle y).1 hs]
  exact ht

/-- Claim C3 counterexample: the leading-`watched` strip is applied once per
pass, so a title with a doubled prefix loses one copy per application and
cleanup is not idempotent. -/
theorem C3_counterexample :
    cleanTitle "watched watched Song".data = "watched Song".data ∧
    cleanTitle (cleanTitle "watched watched Song".data) = "Song".data ∧
    cleanTitle (cleanTitle "watched watched Song".data) ≠
      cleanTitle "watched watched Song".data := by
  exact ⟨by decide, by decide, by decide⟩

/-- Claim C3 (amended): cleanup applied twice equals cleanup applied once on
exactly those inputs whose cleaned form no strip rule rewrites again; on inputs
such as a doubled `watched ` prefix (or a re-exposed trailing annotation) the
second pass strips further, so unconditional idempotence fails. -/
theorem C3_cleanup_idempotence (x : Str) (h : cleanStable (cleanTitle x)) :
    cleanTitle (cleanTitle x) = cleanTitle x :=
  cleanTitle_of_stable h (trimS_cleanTitle x) (spacesSingle_cleanTitle x)

/-- Witness for the C3 theorem: an ordinary annotated title whose cleaned form
is stable. -/
theorem C3_witness :
    cleanStable (cleanTitle "watched Song (Official Video)".data) ∧
    cleanTitle (cleanTitle "watched Song (Official Video)".data) =
      cleanTitle "watched Song (Official Video)".data :=
  ⟨by decide, C3_cleanup_idempotence _ (by decide)⟩

end Ytm
